import Mathlib

/-!
# Metronome — audio scheduling and beat-timeline engine, shallow embedding

This file embeds the core of the Metronome repository in Lean:

* `scheduler` (modules/audio/scheduler.js): lookahead scheduling loop,
  start/stop, interval re-anchoring, error counting and recovery;
* the module-level metronome API (modules/core/metronome.js, module version):
  `setBPM`, `setTimeSignature`, `startMetronome`, `stopMetronome`,
  `toggleMetronome` with its debounce lock;
* the class-based `Metronome.setBPM` (modules/core/metronome.js, class
  version) with its `clamp` helper;
* the two sound emitters: `playSoundInternal`
  (备份/1.0.3/modules/audio/soundBuffers.js), which clamps volume and start
  time, and the class-based `Metronome._playBeat`
  (modules/core/metronome.js), which converts a percent volume and starts at
  the requested time unclamped.

Time values (audio-clock seconds, wall-clock milliseconds) and BPM values are
modelled as rationals.  Where JavaScript `NaN` semantics matter (the setters'
range checks), numbers are modelled by `JSNum`, a rational extended with a NaN
element whose comparisons are all false, as in IEEE/JS.
-/

namespace Metronome

/-- A JavaScript number as used by the setters: either an actual (rational)
value or `NaN`.  (`typeof x === 'number'` holds for both.) -/
inductive JSNum
  | nan
  | num (q : ℚ)
deriving DecidableEq

namespace JSNum

/-- JS `<` : any comparison with NaN is false. -/
def lt : JSNum → JSNum → Bool
  | num a, num b => decide (a < b)
  | _, _ => false

/-- JS subtraction: NaN propagates. -/
def jsub : JSNum → JSNum → JSNum
  | num a, num b => num (a - b)
  | _, _ => nan

/-- JS `Math.abs`: NaN propagates. -/
def jabs : JSNum → JSNum
  | num a => num |a|
  | nan => nan

/-- JS `Math.round(x * 10) / 10` (round half toward +∞); NaN propagates.
Used by `setBPM` to limit bpm precision to one decimal. -/
def roundTenth : JSNum → JSNum
  | nan => nan
  | num q => num ((⌊q * 10 + 1 / 2⌋ : ℤ) / 10)

/-- JS `Number(value) || 0`: NaN is falsy and collapses to 0
(so does 0 itself, which is already 0). -/
def orZero : JSNum → ℚ
  | nan => 0
  | num q => q

/-- JS strict equality `===` on numbers: `NaN === NaN` is false. -/
def seq : JSNum → JSNum → Bool
  | num a, num b => decide (a = b)
  | _, _ => false

/-- JS division by a nonzero rational constant: NaN propagates. -/
def divc : JSNum → ℚ → JSNum
  | nan, _ => nan
  | num a, c => num (a / c)

end JSNum

/-! ## Configuration constants (modules/utils/config.js) -/

def minBPM : ℚ := 40
def maxBPM : ℚ := 300
def minBeatNumerator : ℚ := 1
def maxBeatNumerator : ℚ := 16
def validDenominators : List ℚ := [1, 2, 4, 8, 16]

/-! ## Scheduler state (modules/audio/scheduler.js) -/

/-- Lifecycle state of the host `AudioContext`. -/
inductive ACState
  | running
  | suspended
  | closed
deriving DecidableEq

/-- A beat event handed to the scheduler callback: the precise audio-clock
timestamp (`scheduler.nextBeatTime` at dispatch) and the 1-based beat number
within the bar (`scheduler.currentBeat` at dispatch). -/
structure BeatEvent where
  time : ℚ
  beat : ℕ
deriving DecidableEq

/-- The mutable fields of the `scheduler` object.  `hasContext` records
whether `audioContext` is non-null; the context's lifecycle *state* is
supplied externally per tick (it evolves asynchronously in the host).
`timer` is the delay (ms) of the pending `setTimeout` re-arming
`schedulerLoop` (`timerID`), `recovery` the delay of the pending recovery
timeout (`recoveryTimeout`); `none` models a null handle. -/
structure Sched where
  hasContext : Bool
  isRunning : Bool
  hasCallback : Bool
  currentBeat : ℕ
  nextBeatTime : ℚ
  errorCount : ℕ
  lastUpdateTime : ℚ
  timer : Option ℚ
  recovery : Option ℚ
deriving DecidableEq

/-- `scheduler.maxAllowedErrors`. -/
def maxAllowedErrors : ℕ := 3
/-- `scheduler.minScheduleInterval` (ms). -/
def minScheduleInterval : ℚ := 1
/-- `scheduler.maxScheduleInterval` (ms). -/
def maxScheduleInterval : ℚ := 100
/-- `scheduler.scheduleAheadTime` (seconds). -/
def scheduleAheadTime : ℚ := 1 / 5
/-- `maxSchedulesPerIteration` in `schedulerLoop`. -/
def maxSchedulesPerIteration : ℕ := 20

/-- `60.0 / state.bpm`, the inter-beat interval in seconds. -/
def secondsPerBeat (bpm : ℚ) : ℚ := 60 / bpm

/-- `interval = 60.0 / state.bpm; this.currentBeat = (this.currentBeat %
state.beatNumerator) + 1` — the beat-number update performed once per
dispatched beat (schedulerLoop lines 391 and 416). -/
def advanceBeat (numerator b : ℕ) : ℕ := b % numerator + 1

/-- `scheduler.stop()`: clears the running flag, cancels the loop timer and
the recovery timeout, drops the callback, resets `currentBeat` to 1 and
`errorCount` to 0.  `nextBeatTime` and the context are untouched. -/
def stopS (s : Sched) : Sched :=
  { s with isRunning := false, timer := none, recovery := none,
           hasCallback := false, currentBeat := 1, errorCount := 0 }

/-- `scheduler.attemptRecovery()` (synchronous part): if a recovery timeout
is already pending do nothing, otherwise arm a 1000 ms recovery timeout. -/
def attemptRecoveryS (s : Sched) : Sched :=
  if s.recovery.isSome then s else { s with recovery := some 1000 }

/-- `scheduler.init()` as observable on this state: a no-op (with a warning)
when a context already exists; otherwise it creates the context —
`initOk = false` models `new AudioContext` throwing, which leaves
`audioContext` null. -/
def initS (initOk : Bool) (s : Sched) : Sched :=
  if s.hasContext then s
  else if initOk then { s with hasContext := true } else s

/-- The body of the recovery timeout armed by `scheduler.attemptRecovery()`:
reset `errorCount`, re-run `init()` when the context is missing or closed
(errors from `init` are caught and logged), and finally clear the
`recoveryTimeout` handle.  It never touches `isRunning`. -/
def recoveryRun (acState : ACState) (initOk : Bool) (s : Sched) : Sched :=
  let s1 := { s with errorCount := 0 }
  let s2 := if ¬s1.hasContext ∨ acState = ACState.closed then initS initOk s1 else s1
  { s2 with recovery := none }

/-- `scheduler.reset()`, invoked by the `onstatechange` listener when the
context reports `closed`: stop, null the context, zero the clocks. -/
def resetS (s : Sched) : Sched :=
  { stopS s with hasContext := false, nextBeatTime := 0, lastUpdateTime := 0 }

/-- `scheduler.start(callback)` up to (and not including) its final
synchronous `schedulerLoop()` call, which is modelled as a separate tick.
`callbackIsFunction` is the `typeof callback === 'function'` test.  Initial
beat time is `audioContext.currentTime + 0.2` (the 200 ms startup delay). -/
def startS (acNow wallNow : ℚ) (callbackIsFunction : Bool) (s : Sched) : Sched × Bool :=
  if ¬s.hasContext then (s, false)
  else if s.isRunning then (s, true)
  else if ¬callbackIsFunction then (s, false)
  else
    ({ s with hasCallback := true, isRunning := true, currentBeat := 1,
              errorCount := 0, nextBeatTime := acNow + 1 / 5,
              lastUpdateTime := wallNow }, true)

/-- `scheduler.updateInterval()`: re-anchors `nextBeatTime` to
`audioContext.currentTime + 0.15`; `currentBeat` is deliberately left alone.
When the context is null, reading `currentTime` throws and the catch returns
false without touching the state. -/
def updateIntervalS (acNow : ℚ) (s : Sched) : Sched × Bool :=
  if s.hasContext then ({ s with nextBeatTime := acNow + 3 / 20 }, true) else (s, false)

/-- Per-tick environment of `schedulerLoop`: `Date.now()`,
`audioContext.currentTime`, the context's lifecycle state, the bpm and
time-signature numerator read from `getState()` at the top of the tick, and
`errs k` telling whether the k-th callback invocation of this tick throws. -/
structure TickEnv where
  wallNow : ℚ
  acNow : ℚ
  acState : ACState
  bpm : ℚ
  numerator : ℕ
  errs : ℕ → Bool

/-- One dispatch's timeline advance (schedulerLoop lines 388–394 on success
with `errorCount := 0`, lines 415–416 on a caught error with the incremented
count): `nextBeatTime += interval; currentBeat = (currentBeat % numerator) + 1`. -/
def dispatchAdvance (numerator : ℕ) (interval : ℚ) (ec : ℕ) (s : Sched) : Sched :=
  { s with nextBeatTime := s.nextBeatTime + interval,
           currentBeat := advanceBeat numerator s.currentBeat,
           errorCount := ec }

/-- The inner `while` loop of `schedulerLoop` (lines 362–418), with
`fuel = maxSchedulesPerIteration - scheduleCount` and `k` the number of
callback invocations already made this tick.  Returns the state, the list of
dispatched `BeatEvent`s in order, and whether the loop aborted through the
error threshold (`stop(); attemptRecovery(); return`).  A beat is counted as
dispatched when the callback is invoked; on a throw below the threshold the
timeline still advances; the throw that reaches `maxAllowedErrors` stops the
scheduler without advancing. -/
def innerLoop (numerator : ℕ) (interval boundary : ℚ) (errs : ℕ → Bool) :
    ℕ → ℕ → Sched → Sched × List BeatEvent × Bool
  | 0, _, s => (s, [], false)
  | fuel + 1, k, s =>
    if s.nextBeatTime < boundary then
      if s.hasCallback then
        let ev : BeatEvent := ⟨s.nextBeatTime, s.currentBeat⟩
        if errs k then
          if maxAllowedErrors ≤ s.errorCount + 1 then
            (attemptRecoveryS (stopS s), [ev], true)
          else
            let r := innerLoop numerator interval boundary errs fuel (k + 1)
              (dispatchAdvance numerator interval (s.errorCount + 1) s)
            (r.1, ev :: r.2.1, r.2.2)
        else
          let r := innerLoop numerator interval boundary errs fuel (k + 1)
            (dispatchAdvance numerator interval 0 s)
          (r.1, ev :: r.2.1, r.2.2)
      else
        innerLoop numerator interval boundary errs fuel (k + 1)
          (dispatchAdvance numerator interval 0 s)
    else (s, [], false)

/-- One invocation of `scheduler.schedulerLoop()` (lines 316–447): running
check; tick-frequency throttle; `lastUpdateTime` update; closed-context check
(fatal: `stop()`); suspended-context check (re-arm after 50 ms, dispatch
nothing); the inner dispatch loop; and computation of the next tick's delay,
re-armed only when still running. -/
def schedulerTick (e : TickEnv) (s : Sched) : Sched × List BeatEvent :=
  if ¬s.isRunning then (s, [])
  else if s.lastUpdateTime ≠ 0 ∧ e.wallNow - s.lastUpdateTime < minScheduleInterval then
    ({ s with timer := some minScheduleInterval }, [])
  else
    let s0 := { s with lastUpdateTime := e.wallNow }
    if ¬s0.hasContext ∨ e.acState = ACState.closed then (stopS s0, [])
    else if e.acState = ACState.suspended then ({ s0 with timer := some 50 }, [])
    else
      let r := innerLoop e.numerator (secondsPerBeat e.bpm) (e.acNow + scheduleAheadTime)
        e.errs maxSchedulesPerIteration 0 s0
      if r.2.2 then (r.1, r.2.1)
      else
        let t := (r.1.nextBeatTime - e.acNow - scheduleAheadTime) * 1000
        let d := if t ≤ 0 then 0 else max minScheduleInterval (min t maxScheduleInterval)
        if r.1.isRunning then ({ r.1 with timer := some d }, r.2.1) else (r.1, r.2.1)

/-- A scheduler-affecting action while running: a `schedulerLoop` tick, or a
`scheduler.updateInterval()` re-anchor (triggered by `setBPM` /
`setTimeSignature` while the metronome runs). -/
inductive Act
  | tick (e : TickEnv)
  | updInterval (acNow : ℚ)

/-- Run a sequence of ticks, concatenating the dispatched beat events. -/
def runTicks : List TickEnv → Sched → Sched × List BeatEvent
  | [], s => (s, [])
  | e :: rest, s =>
    let r := schedulerTick e s
    let r2 := runTicks rest r.1
    (r2.1, r.2 ++ r2.2)

/-- Run a sequence of actions, concatenating the dispatched beat events. -/
def runActs : List Act → Sched → Sched × List BeatEvent
  | [], s => (s, [])
  | Act.tick e :: rest, s =>
    let r := schedulerTick e s
    let r2 := runActs rest r.1
    (r2.1, r.2 ++ r2.2)
  | Act.updInterval a :: rest, s =>
    runActs rest (updateIntervalS a s).1

/-! ## Metronome module-level API (modules/core/metronome.js, module version) -/

/-- The application state kept in modules/utils/state.js, restricted to the
fields the metronome core reads and writes.  `isInitialized` and
`audioReady` stand for `metronomeState.isInitialized` and `isAudioReady()`.
Fields a setter can write a JS `NaN` into are `JSNum`. -/
structure AppState where
  bpm : JSNum
  beatNumerator : JSNum
  beatDenominator : JSNum
  volume : ℚ
  isRunning : Bool
  isInitialized : Bool
  audioReady : Bool
  currentBeat : ℚ
  currentBar : ℚ
deriving DecidableEq

/-- `setBPM(newBPM)` (module version): rejects (`throw` → catch → `false`)
when `newBPM < minBPM || newBPM > maxBPM` (both comparisons are false for
NaN, which therefore passes); rounds to one decimal; no-ops returning true
when within 0.1 of the current bpm (false when either side is NaN); else
stores the rounded value.  The `scheduler.updateInterval()` call it makes
while running is modelled separately by `updateIntervalS`. -/
def setBPM (newBPM : JSNum) (st : AppState) : AppState × Bool :=
  if JSNum.lt newBPM (JSNum.num minBPM) || JSNum.lt (JSNum.num maxBPM) newBPM then
    (st, false)
  else
    let clampedBPM := JSNum.roundTenth newBPM
    if JSNum.lt (JSNum.jabs (JSNum.jsub st.bpm clampedBPM)) (JSNum.num (1 / 10)) then
      (st, true)
    else
      ({ st with bpm := clampedBPM }, true)

/-- The class file's helper
`clamp(value, min, max) = Math.min(Math.max(Number(value) || 0, min), max)`. -/
def clampJS (v : JSNum) (lo hi : ℚ) : ℚ := min (max (JSNum.orZero v) lo) hi

/-- `Metronome.setBPM(bpm)` (class version): unconditionally clamps into
`[minBPM, maxBPM]` via `clampJS` and stores the result (the method returns
undefined, so there is no success/failure signal). -/
def classSetBPM (v : JSNum) : ℚ := clampJS v minBPM maxBPM

/-- `setTimeSignature(numerator, denominator)` (module version): rejects when
the numerator compares below `minBeatNumerator` or above `maxBeatNumerator`
(NaN passes, both comparisons being false) or when the denominator is not in
`validDenominators`; returns true without touching anything when both values
are strictly equal (`===`) to the current signature; otherwise stores the
signature and resets `currentBeat` and `currentBar` to 0. -/
def setTimeSignature (numerator denominator : JSNum) (st : AppState) : AppState × Bool :=
  if JSNum.lt numerator (JSNum.num minBeatNumerator) ||
      JSNum.lt (JSNum.num maxBeatNumerator) numerator then
    (st, false)
  else if ¬ validDenominators.any (fun d => JSNum.seq denominator (JSNum.num d)) then
    (st, false)
  else if JSNum.seq st.beatNumerator numerator ∧ JSNum.seq st.beatDenominator denominator then
    (st, true)
  else
    ({ st with beatNumerator := numerator, beatDenominator := denominator,
               currentBeat := 0, currentBar := 0 }, true)

/-- `stopMetronome()`: returns false without any effect when not running;
otherwise stops the scheduler and clears `isRunning`, `currentBeat`,
`currentBar`. -/
def stopMetronome (st : AppState) (sch : Sched) : AppState × Sched × Bool :=
  if ¬st.isRunning then (st, sch, false)
  else
    ({ st with isRunning := false, currentBeat := 0, currentBar := 0 }, stopS sch, true)

/-- `startMetronome()`: the not-initialized / audio-not-ready throws land in
the catch which forces `isRunning := false` and returns false; an
already-running metronome is left untouched (returns false with a warning);
otherwise `isRunning` is set, the scheduler is started with the
`scheduleBeat` callback, and a failed scheduler start is rolled back. -/
def startMetronome (acNow wallNow : ℚ) (st : AppState) (sch : Sched) :
    AppState × Sched × Bool :=
  if ¬st.isInitialized ∨ ¬st.audioReady then ({ st with isRunning := false }, sch, false)
  else if st.isRunning then (st, sch, false)
  else
    let r := startS acNow wallNow true sch
    if r.2 then ({ st with isRunning := true }, r.1, true)
    else ({ st with isRunning := false }, r.1, false)

/-- `TOGGLE_LOCK_DURATION` (ms). -/
def TOGGLE_LOCK_DURATION : ℚ := 300

/-- `toggleMetronome()`: the module-level `toggleLock` flag together with its
releasing `setTimeout(.., TOGGLE_LOCK_DURATION)` is modelled by the absolute
wall-clock instant `lockUntil` at which the lock is released.  A call while
the lock is held returns false and touches nothing; otherwise the lock is
re-armed for 300 ms and the call dispatches to `stopMetronome` /
`startMetronome` according to `state.isRunning`. -/
def toggleMetronome (wallNow acNow lockUntil : ℚ) (st : AppState) (sch : Sched) :
    ℚ × AppState × Sched × Bool :=
  if wallNow < lockUntil then (lockUntil, st, sch, false)
  else
    let lockUntil2 := wallNow + TOGGLE_LOCK_DURATION
    if st.isRunning then
      let r := stopMetronome st sch
      (lockUntil2, r.1, r.2.1, r.2.2)
    else
      let r := startMetronome acNow wallNow st sch
      (lockUntil2, r.1, r.2.1, r.2.2)

/-! ## Sound emission (备份/1.0.3/modules/audio/soundBuffers.js) -/

/-- The concrete click types of the sound-buffer module. -/
inductive SoundName
  | high
  | low
  | medium
  | click
  | beep
deriving DecidableEq

/-- `getActualSoundDuration(soundType)` (seconds). -/
def getActualSoundDuration : SoundName → ℚ
  | SoundName.high => 1 / 50
  | SoundName.low => 3 / 100
  | SoundName.medium => 1 / 40
  | SoundName.click => 1 / 100
  | SoundName.beep => 1 / 20

/-- Beat kind passed by `scheduleBeat` to `playSound`. -/
inductive BeatType
  | firstBeat
  | regularBeat
deriving DecidableEq

/-- The options object of `playSound` / `playSoundInternal`. -/
structure PlayOpts where
  type : BeatType
  time : ℚ
  volume : ℚ
deriving DecidableEq

/-- The scheduling data `playSoundInternal` commits to the audio graph:
the clamped gain peak, the (clamped-up) `source.start` time, and the
envelope's fade-in / sustain / fade-out spans. -/
structure PlayResult where
  soundType : SoundName
  safeVolume : ℚ
  startTime : ℚ
  fadeIn : ℚ
  fadeOut : ℚ
  sustain : ℚ
  duration : ℚ
deriving DecidableEq

/-- `playSoundInternal(options)` (lines 289–459): the initialized / context /
buffer pre-checks return false (`none`); then
`safeVolume = Math.max(0, Math.min(0.9, volume))`,
`startTime = Math.max(time, audioContext.currentTime)`, the fade times are
derived from the sound's fixed duration (scaled down when they would exceed
80% of it), the gain envelope ramps `0 → safeVolume → 0` from `startTime`,
and `source.start(startTime)` is issued.  The config sound names are
`firstBeatSound = high`, `regularBeatSound = low`. -/
def playSoundInternal (initialized hasContext : Bool) (bufferLoaded : SoundName → Bool)
    (acNow : ℚ) (opts : PlayOpts) : Option PlayResult :=
  if ¬initialized ∨ ¬hasContext then none
  else
    let soundType := match opts.type with
      | BeatType.firstBeat => SoundName.high
      | BeatType.regularBeat => SoundName.low
    if ¬bufferLoaded soundType then none
    else
      let safeVolume := max 0 (min (9 / 10) opts.volume)
      let actualDuration := getActualSoundDuration soundType
      let startTime := max opts.time acNow
      let fadeInTime := min (1 / 500) (actualDuration * (1 / 10))
      let fadeOutTime := min (3 / 1000) (actualDuration * (3 / 20))
      let totalFadeTime := fadeInTime + fadeOutTime
      let fades :=
        if actualDuration * (4 / 5) < totalFadeTime then
          (fadeInTime * (actualDuration * (4 / 5) / totalFadeTime),
           fadeOutTime * (actualDuration * (4 / 5) / totalFadeTime))
        else (fadeInTime, fadeOutTime)
      let sustainTime := max 0 (actualDuration - fades.1 - fades.2)
      some { soundType := soundType, safeVolume := safeVolume, startTime := startTime,
             fadeIn := fades.1, fadeOut := fades.2, sustain := sustainTime,
             duration := actualDuration }

/-! ## Class-based beat playback (modules/core/metronome.js, `Metronome._playBeat`) -/

/-- An entry of `this.toneConfig`. -/
structure Tone where
  frequency : ℚ
  duration : ℚ
deriving DecidableEq

/-- `toneConfig.click = { frequency: 800, duration: 0.05 }`. -/
def toneConfigClick : Tone := ⟨800, 1 / 20⟩

/-- `toneConfig.accent = { frequency: 1200, duration: 0.07 }`. -/
def toneConfigAccent : Tone := ⟨1200, 7 / 100⟩

/-- The scheduling data `Metronome._playBeat` commits to the audio graph: the
oscillator frequency, the `linearRampToValueAtTime` envelope peak reached at
`time + 0.01`, the `oscillator.start` time (the *requested* `time`, used
as-is), and the `oscillator.stop` time. -/
structure PlayBeatResult where
  frequency : ℚ
  envPeak : ℚ
  startTime : ℚ
  stopTime : ℚ
deriving DecidableEq

/-- `Metronome._playBeat(beatParams)` (metronome.js lines 267–338): a
non-number `volume` (modelled `none`) throws and the error is caught —
nothing is scheduled; otherwise
`safeVolume = clamp(beatParams.volume / 100, 0, 1)` (the file's `clamp`
helper, `Math.min(Math.max(Number(v) || 0, min), max)`), the tone is
`toneConfig.accent` when `isAccent` else `toneConfig.click`, the gain
envelope ramps `0 → safeVolume * 0.5` over `[time, time + 0.01]`, and
`oscillator.start(time)` / `oscillator.stop(time + tone.duration + 0.01)`
use the requested `time` directly — the function never reads
`audioContext.currentTime`. -/
def _playBeat (volume : Option JSNum) (time : ℚ) (isAccent : Bool) :
    Option PlayBeatResult :=
  match volume with
  | none => none
  | some v =>
    let safeVolume := clampJS (JSNum.divc v 100) 0 1
    let tone := if isAccent then toneConfigAccent else toneConfigClick
    some { frequency := tone.frequency, envPeak := safeVolume * (1 / 2),
           startTime := time, stopTime := time + tone.duration + 1 / 100 }

/-! ## Concrete scenario states -/

/-- Default application state (config defaults: 120 bpm, 4/4, volume 50),
metronome initialized and audio ready, stopped. -/
def defaultAppState : AppState :=
  { bpm := JSNum.num 120, beatNumerator := JSNum.num 4, beatDenominator := JSNum.num 4,
    volume := 50, isRunning := false, isInitialized := true, audioReady := true,
    currentBeat := 0, currentBar := 0 }

/-- Scheduler after `init()`, before `start()`. -/
def schedReady : Sched :=
  { hasContext := true, isRunning := false, hasCallback := false, currentBeat := 1,
    nextBeatTime := 0, errorCount := 0, lastUpdateTime := 0,
    timer := none, recovery := none }

/-- Scheduler mid-run: started at audio-clock 0 (wall-clock 1000 ms),
first beat due at 0.2 s. -/
def schedRunning : Sched :=
  { hasContext := true, isRunning := true, hasCallback := true, currentBeat := 1,
    nextBeatTime := 1 / 5, errorCount := 0, lastUpdateTime := 1000,
    timer := none, recovery := none }

/-- A tick at audio-clock 3 s whose callback throws on every dispatch. -/
def envFail : TickEnv :=
  { wallNow := 2000, acNow := 3, acState := ACState.running, bpm := 60, numerator := 4,
    errs := fun _ => true }

/-- An error-free tick at audio-clock 0.01 s, 60 bpm, 4/4. -/
def envA : TickEnv :=
  { wallNow := 1010, acNow := 1 / 100, acState := ACState.running, bpm := 60, numerator := 4,
    errs := fun _ => false }

/-- An error-free tick at audio-clock 0.03 s, 60 bpm, 4/4. -/
def envB : TickEnv :=
  { wallNow := 1020, acNow := 3 / 100, acState := ACState.running, bpm := 60, numerator := 4,
    errs := fun _ => false }

/-- Start, dispatch a beat, re-anchor through `updateInterval()` (a tempo
change at audio-clock 0.02 s), tick again. -/
def cexActs : List Act := [Act.tick envA, Act.updInterval (1 / 50), Act.tick envB]

/-- A tick at audio-clock 3 s finding the context suspended. -/
def envSus : TickEnv :=
  { wallNow := 2000, acNow := 3, acState := ACState.suspended, bpm := 60, numerator := 4,
    errs := fun _ => false }

/-- State after the `envA` tick: one beat dispatched at 0.2 s, next due 1.2 s,
timer re-armed at `maxScheduleInterval`. -/
def schedAfterTickA : Sched :=
  { hasContext := true, isRunning := true, hasCallback := true, currentBeat := 2,
    nextBeatTime := 6 / 5, errorCount := 0, lastUpdateTime := 1010,
    timer := some 100, recovery := none }

/-- State after the `updateInterval` re-anchor at audio-clock 0.02 s:
`nextBeatTime = 0.02 + 0.15 = 0.17`. -/
def schedAfterUpd : Sched := { schedAfterTickA with nextBeatTime := 17 / 100 }

/-- State after the `envB` tick: a beat dispatched at 0.17 s. -/
def schedAfterTickB : Sched :=
  { schedAfterUpd with currentBeat := 3, nextBeatTime := 117 / 100, lastUpdateTime := 1020 }

/-- State after the `envFail` tick from `schedRunning`: stopped by the error
threshold with a pending 1000 ms recovery; `nextBeatTime` froze at 2.2 s. -/
def schedFailStopped : Sched :=
  { hasContext := true, isRunning := false, hasCallback := false, currentBeat := 1,
    nextBeatTime := 11 / 5, errorCount := 0, lastUpdateTime := 2000,
    timer := none, recovery := some 1000 }

/-! ## Unfolding lemmas for the inner dispatch loop -/

lemma innerLoop_zero (N : ℕ) (i b : ℚ) (errs : ℕ → Bool) (k : ℕ) (s : Sched) :
    innerLoop N i b errs 0 k s = (s, [], false) := rfl

lemma innerLoop_idle (N : ℕ) (i b : ℚ) (errs : ℕ → Bool) (fuel k : ℕ) (s : Sched)
    (h : ¬ s.nextBeatTime < b) :
    innerLoop N i b errs (fuel + 1) k s = (s, [], false) := by
  simp [innerLoop, h]

lemma innerLoop_dispatch_ok (N : ℕ) (i b : ℚ) (errs : ℕ → Bool) (fuel k : ℕ) (s : Sched)
    (h : s.nextBeatTime < b) (hcb : s.hasCallback = true) (hk : errs k = false) :
    innerLoop N i b errs (fuel + 1) k s =
      ((innerLoop N i b errs fuel (k + 1) (dispatchAdvance N i 0 s)).1,
       (⟨s.nextBeatTime, s.currentBeat⟩ : BeatEvent) ::
         (innerLoop N i b errs fuel (k + 1) (dispatchAdvance N i 0 s)).2.1,
       (innerLoop N i b errs fuel (k + 1) (dispatchAdvance N i 0 s)).2.2) := by
  simp [innerLoop, h, hcb, hk]

lemma innerLoop_dispatch_err (N : ℕ) (i b : ℚ) (errs : ℕ → Bool) (fuel k : ℕ) (s : Sched)
    (h : s.nextBeatTime < b) (hcb : s.hasCallback = true) (hk : errs k = true)
    (hth : ¬ maxAllowedErrors ≤ s.errorCount + 1) :
    innerLoop N i b errs (fuel + 1) k s =
      ((innerLoop N i b errs fuel (k + 1) (dispatchAdvance N i (s.errorCount + 1) s)).1,
       (⟨s.nextBeatTime, s.currentBeat⟩ : BeatEvent) ::
         (innerLoop N i b errs fuel (k + 1) (dispatchAdvance N i (s.errorCount + 1) s)).2.1,
       (innerLoop N i b errs fuel (k + 1) (dispatchAdvance N i (s.errorCount + 1) s)).2.2) := by
  simp [innerLoop, h, hcb, hk, hth]

lemma innerLoop_dispatch_abort (N : ℕ) (i b : ℚ) (errs : ℕ → Bool) (fuel k : ℕ) (s : Sched)
    (h : s.nextBeatTime < b) (hcb : s.hasCallback = true) (hk : errs k = true)
    (hth : maxAllowedErrors ≤ s.errorCount + 1) :
    innerLoop N i b errs (fuel + 1) k s =
      (attemptRecoveryS (stopS s), [⟨s.nextBeatTime, s.currentBeat⟩], true) := by
  simp [innerLoop, h, hcb, hk, hth]

/-! ## Characterization of an error-free loop -/

lemma innerLoop_noErr (N : ℕ) (i b : ℚ) (errs : ℕ → Bool) (herr : ∀ k, errs k = false) :
    ∀ (fuel k : ℕ) (s : Sched), s.hasCallback = true →
      (innerLoop N i b errs fuel k s).2.2 = false ∧
      (innerLoop N i b errs fuel k s).1.isRunning = s.isRunning ∧
      (innerLoop N i b errs fuel k s).1.hasCallback = s.hasCallback ∧
      (innerLoop N i b errs fuel k s).1.nextBeatTime =
        s.nextBeatTime + (innerLoop N i b errs fuel k s).2.1.length * i ∧
      (innerLoop N i b errs fuel k s).1.currentBeat =
        (advanceBeat N)^[(innerLoop N i b errs fuel k s).2.1.length] s.currentBeat ∧
      (innerLoop N i b errs fuel k s).1.errorCount =
        (if (innerLoop N i b errs fuel k s).2.1.length = 0 then s.errorCount else 0) ∧
      (innerLoop N i b errs fuel k s).2.1 =
        (List.range (innerLoop N i b errs fuel k s).2.1.length).map
          (fun j => ⟨s.nextBeatTime + j * i, (advanceBeat N)^[j] s.currentBeat⟩)
  | 0, k, s, hcb => by simp [innerLoop_zero]
  | fuel + 1, k, s, hcb => by
    by_cases hlt : s.nextBeatTime < b
    · rw [innerLoop_dispatch_ok N i b errs fuel k s hlt hcb (herr k)]
      obtain ⟨h1, h2, h3, h4, h5, h6, h7⟩ :=
        innerLoop_noErr N i b errs herr fuel (k + 1) (dispatchAdvance N i 0 s)
          (by simpa [dispatchAdvance] using hcb)
      refine ⟨h1, by simpa [dispatchAdvance] using h2, by simpa [dispatchAdvance] using h3,
        ?_, ?_, ?_, ?_⟩
      · rw [List.length_cons, h4]
        simp only [dispatchAdvance]
        push_cast
        ring
      · rw [List.length_cons, h5]
        simp only [dispatchAdvance, Function.iterate_succ_apply]
      · rw [List.length_cons, h6]
        rcases Nat.eq_zero_or_pos
            (innerLoop N i b errs fuel (k + 1) (dispatchAdvance N i 0 s)).2.1.length with
          hz | hp
        · simp [hz, dispatchAdvance]
        · simp [Nat.pos_iff_ne_zero.mp hp]
      · rw [List.length_cons, List.range_succ_eq_map, List.map_cons]
        refine congrArg₂ _ (by simp) ?_
        rw [h7, List.map_map]
        simp only [List.length_map, List.length_range]
        refine (List.map_congr_left fun j _ => ?_).symm
        simp only [dispatchAdvance, Function.comp_apply]
        refine congrArg₂ _ ?_ ?_
        · push_cast
          ring
        · rw [Function.iterate_succ_apply]
    · rw [innerLoop_idle N i b errs fuel k s hlt]
      simp

/-! ## Characterization of a loop whose callback always throws -/

lemma innerLoop_allFail (N : ℕ) (i b : ℚ) (errs : ℕ → Bool) (herr : ∀ k, errs k = true) :
    ∀ (fuel k : ℕ) (s : Sched), s.hasCallback = true →
      s.errorCount < maxAllowedErrors →
      ((innerLoop N i b errs fuel k s).2.2 = false →
        (innerLoop N i b errs fuel k s).1.isRunning = s.isRunning ∧
        (innerLoop N i b errs fuel k s).1.nextBeatTime =
          s.nextBeatTime + (innerLoop N i b errs fuel k s).2.1.length * i ∧
        (innerLoop N i b errs fuel k s).1.currentBeat =
          (advanceBeat N)^[(innerLoop N i b errs fuel k s).2.1.length] s.currentBeat ∧
        (innerLoop N i b errs fuel k s).1.errorCount =
          s.errorCount + (innerLoop N i b errs fuel k s).2.1.length ∧
        s.errorCount + (innerLoop N i b errs fuel k s).2.1.length < maxAllowedErrors) ∧
      ((innerLoop N i b errs fuel k s).2.2 = true →
        (innerLoop N i b errs fuel k s).1.isRunning = false ∧
        (innerLoop N i b errs fuel k s).1.recovery = some 1000 ∧
        1 ≤ (innerLoop N i b errs fuel k s).2.1.length ∧
        s.errorCount + (innerLoop N i b errs fuel k s).2.1.length = maxAllowedErrors ∧
        (innerLoop N i b errs fuel k s).1.nextBeatTime =
          s.nextBeatTime + (((innerLoop N i b errs fuel k s).2.1.length - 1 : ℕ) : ℚ) * i)
  | 0, k, s, hcb, hec => by
    rw [innerLoop_zero]
    exact ⟨fun _ => ⟨rfl, by simp, by simp, by simp, by simpa using hec⟩,
      fun h => by simp at h⟩
  | fuel + 1, k, s, hcb, hec => by
    by_cases hlt : s.nextBeatTime < b
    · by_cases hth : maxAllowedErrors ≤ s.errorCount + 1
      · rw [innerLoop_dispatch_abort N i b errs fuel k s hlt hcb (herr k) hth]
        refine ⟨by simp, fun _ => ?_⟩
        refine ⟨by simp [attemptRecoveryS, stopS], by simp [attemptRecoveryS, stopS],
          by simp, ?_, by simp [attemptRecoveryS, stopS]⟩
        simp only [List.length_cons, List.length_nil]
        omega
      · rw [innerLoop_dispatch_err N i b errs fuel k s hlt hcb (herr k) hth]
        have hcb2 : (dispatchAdvance N i (s.errorCount + 1) s).hasCallback = true := hcb
        have hec2 : (dispatchAdvance N i (s.errorCount + 1) s).errorCount < maxAllowedErrors := by
          show s.errorCount + 1 < maxAllowedErrors
          omega
        obtain ⟨hno, hab⟩ := innerLoop_allFail N i b errs herr fuel (k + 1) _ hcb2 hec2
        have hrun : (dispatchAdvance N i (s.errorCount + 1) s).isRunning = s.isRunning := rfl
        have hnbt : (dispatchAdvance N i (s.errorCount + 1) s).nextBeatTime =
            s.nextBeatTime + i := rfl
        have hbeat : (dispatchAdvance N i (s.errorCount + 1) s).currentBeat =
            advanceBeat N s.currentBeat := rfl
        have hcnt : (dispatchAdvance N i (s.errorCount + 1) s).errorCount =
            s.errorCount + 1 := rfl
        simp only [hrun, hnbt, hbeat, hcnt] at hno hab
        refine ⟨fun hf => ?_, fun ht => ?_⟩
        · obtain ⟨g1, g2, g3, g4, g5⟩ := hno hf
          refine ⟨g1, ?_, ?_, ?_, ?_⟩
          · rw [List.length_cons, g2]
            push_cast
            ring
          · rw [List.length_cons, g3, Function.iterate_succ_apply]
          · rw [List.length_cons, g4]
            omega
          · rw [List.length_cons]
            omega
        · obtain ⟨g1, g2, g3, g4, g5⟩ := hab ht
          refine ⟨g1, g2, by simp, ?_, ?_⟩
          · rw [List.length_cons]
            omega
          · rw [List.length_cons, g5, Nat.succ_sub_one, Nat.cast_sub g3]
            push_cast
            ring
    · rw [innerLoop_idle N i b errs fuel k s hlt]
      exact ⟨fun _ => ⟨rfl, by simp, by simp, by simp, by simpa using hec⟩,
        fun h => by simp at h⟩

/-- The first beat dispatched by the inner loop is at the entry
`nextBeatTime` with the entry `currentBeat`. -/
lemma innerLoop_head (N : ℕ) (i b : ℚ) (errs : ℕ → Bool) :
    ∀ (fuel k : ℕ) (s : Sched), s.hasCallback = true →
      ∀ ev rest, (innerLoop N i b errs fuel k s).2.1 = ev :: rest →
        ev = ⟨s.nextBeatTime, s.currentBeat⟩
  | 0, k, s, hcb, ev, rest, h => by simp [innerLoop_zero] at h
  | fuel + 1, k, s, hcb, ev, rest, h => by
    by_cases hlt : s.nextBeatTime < b
    · rcases he : errs k with hf | ht
      · rw [innerLoop_dispatch_ok N i b errs fuel k s hlt hcb he] at h
        simpa using (List.cons_eq_cons.mp h.symm).1
      · by_cases hth : maxAllowedErrors ≤ s.errorCount + 1
        · rw [innerLoop_dispatch_abort N i b errs fuel k s hlt hcb he hth] at h
          simpa using (List.cons_eq_cons.mp h.symm).1
        · rw [innerLoop_dispatch_err N i b errs fuel k s hlt hcb he hth] at h
          simpa using (List.cons_eq_cons.mp h.symm).1
    · rw [innerLoop_idle N i b errs fuel k s hlt] at h
      simp at h

/-! ## Branch lemmas for one `schedulerLoop` tick -/

lemma schedulerTick_notRunning (e : TickEnv) (s : Sched) (h : s.isRunning = false) :
    schedulerTick e s = (s, []) := by
  simp [schedulerTick, h]

lemma schedulerTick_throttled (e : TickEnv) (s : Sched) (hrun : s.isRunning = true)
    (h : s.lastUpdateTime ≠ 0 ∧ e.wallNow - s.lastUpdateTime < minScheduleInterval) :
    schedulerTick e s = ({ s with timer := some minScheduleInterval }, []) := by
  simp [schedulerTick, hrun, h.1, h.2]

lemma schedulerTick_closed (e : TickEnv) (s : Sched) (hrun : s.isRunning = true)
    (hth : ¬ (s.lastUpdateTime ≠ 0 ∧ e.wallNow - s.lastUpdateTime < minScheduleInterval))
    (h : s.hasContext = false ∨ e.acState = ACState.closed) :
    schedulerTick e s = (stopS { s with lastUpdateTime := e.wallNow }, []) := by
  rcases h with h | h
  · simp [schedulerTick, hrun, hth, h]
  · simp [schedulerTick, hrun, hth, h]

lemma schedulerTick_suspendedCase (e : TickEnv) (s : Sched) (hrun : s.isRunning = true)
    (hth : ¬ (s.lastUpdateTime ≠ 0 ∧ e.wallNow - s.lastUpdateTime < minScheduleInterval))
    (hctx : s.hasContext = true) (h : e.acState = ACState.suspended) :
    schedulerTick e s = ({ s with lastUpdateTime := e.wallNow, timer := some 50 }, []) := by
  simp [schedulerTick, hrun, hth, hctx, h]

lemma schedulerTick_run_noAbort (e : TickEnv) (s : Sched) (hrun : s.isRunning = true)
    (hth : ¬ (s.lastUpdateTime ≠ 0 ∧ e.wallNow - s.lastUpdateTime < minScheduleInterval))
    (hctx : s.hasContext = true) (hst : e.acState = ACState.running)
    (hab : (innerLoop e.numerator (secondsPerBeat e.bpm) (e.acNow + scheduleAheadTime)
        e.errs maxSchedulesPerIteration 0 { s with lastUpdateTime := e.wallNow }).2.2 = false)
    (hr1 : (innerLoop e.numerator (secondsPerBeat e.bpm) (e.acNow + scheduleAheadTime)
        e.errs maxSchedulesPerIteration 0 { s with lastUpdateTime := e.wallNow }).1.isRunning
        = true) :
    schedulerTick e s =
      ({ (innerLoop e.numerator (secondsPerBeat e.bpm) (e.acNow + scheduleAheadTime)
            e.errs maxSchedulesPerIteration 0 { s with lastUpdateTime := e.wallNow }).1 with
          timer := some
            (if ((innerLoop e.numerator (secondsPerBeat e.bpm) (e.acNow + scheduleAheadTime)
                    e.errs maxSchedulesPerIteration 0
                    { s with lastUpdateTime := e.wallNow }).1.nextBeatTime
                  - e.acNow - scheduleAheadTime) * 1000 ≤ 0 then 0
             else max minScheduleInterval
               (min (((innerLoop e.numerator (secondsPerBeat e.bpm)
                        (e.acNow + scheduleAheadTime) e.errs maxSchedulesPerIteration 0
                        { s with lastUpdateTime := e.wallNow }).1.nextBeatTime
                      - e.acNow - scheduleAheadTime) * 1000) maxScheduleInterval)) },
       (innerLoop e.numerator (secondsPerBeat e.bpm) (e.acNow + scheduleAheadTime)
          e.errs maxSchedulesPerIteration 0 { s with lastUpdateTime := e.wallNow }).2.1) := by
  have c1 : (¬s.isRunning = true) = False := by simp [hrun]
  have c2 : (s.lastUpdateTime ≠ 0 ∧ e.wallNow - s.lastUpdateTime < minScheduleInterval)
      = False := by
    rw [eq_iff_iff, iff_false]
    exact hth
  have c3 : (¬s.hasContext = true ∨ e.acState = ACState.closed) = False := by
    simp [hctx, hst]
  have c4 : (e.acState = ACState.suspended) = False := by simp [hst]
  simp only [schedulerTick, c1, c2, c3, c4, hab, hr1, if_false, if_true,
    Bool.false_eq_true, ite_false, ite_true]

/-! ## An error-free tick -/

lemma schedulerTick_noErr (e : TickEnv) (s : Sched)
    (herr : ∀ k, e.errs k = false) (hcb : s.isRunning = true → s.hasCallback = true) :
    ((schedulerTick e s).1.isRunning = true → (schedulerTick e s).1.hasCallback = true) ∧
    (schedulerTick e s).1.nextBeatTime =
      s.nextBeatTime + (schedulerTick e s).2.length * secondsPerBeat e.bpm ∧
    ((schedulerTick e s).1.isRunning = true →
      (schedulerTick e s).1.currentBeat =
        (advanceBeat e.numerator)^[(schedulerTick e s).2.length] s.currentBeat) ∧
    ((schedulerTick e s).1.isRunning = false → (schedulerTick e s).2 = []) ∧
    (schedulerTick e s).2 =
      (List.range (schedulerTick e s).2.length).map
        (fun j => ⟨s.nextBeatTime + j * secondsPerBeat e.bpm,
                   (advanceBeat e.numerator)^[j] s.currentBeat⟩) ∧
    (s.isRunning = false → schedulerTick e s = (s, [])) := by
  by_cases hrun : s.isRunning = true
  · by_cases hth : s.lastUpdateTime ≠ 0 ∧ e.wallNow - s.lastUpdateTime < minScheduleInterval
    · rw [schedulerTick_throttled e s hrun hth]
      exact ⟨fun _ => hcb hrun, by simp, fun _ => by simp, fun _ => rfl, by simp,
        fun h => by simp [hrun] at h⟩
    · by_cases hctx : s.hasContext = true
      · cases hst : e.acState with
        | closed =>
          rw [schedulerTick_closed e s hrun hth (Or.inr hst)]
          exact ⟨fun h => by simp [stopS] at h, by simp [stopS], fun h => by simp [stopS] at h,
            fun _ => rfl, by simp, fun h => by simp [hrun] at h⟩
        | suspended =>
          rw [schedulerTick_suspendedCase e s hrun hth hctx hst]
          exact ⟨fun _ => hcb hrun, by simp, fun _ => by simp, fun _ => rfl, by simp,
            fun h => by simp [hrun] at h⟩
        | running =>
          have hcb0 : ({ s with lastUpdateTime := e.wallNow } : Sched).hasCallback = true :=
            hcb hrun
          obtain ⟨h1, h2, h3, h4, h5, h6, h7⟩ :=
            innerLoop_noErr e.numerator (secondsPerBeat e.bpm) (e.acNow + scheduleAheadTime)
              e.errs herr maxSchedulesPerIteration 0 { s with lastUpdateTime := e.wallNow } hcb0
          have hr1 : (innerLoop e.numerator (secondsPerBeat e.bpm) (e.acNow + scheduleAheadTime)
              e.errs maxSchedulesPerIteration 0
              { s with lastUpdateTime := e.wallNow }).1.isRunning = true := by
            rw [h2]; exact hrun
          rw [schedulerTick_run_noAbort e s hrun hth hctx hst h1 hr1]
          refine ⟨fun _ => ?_, ?_, fun _ => ?_, fun h => ?_, ?_, fun h => by simp [hrun] at h⟩
          · show (innerLoop e.numerator (secondsPerBeat e.bpm) (e.acNow + scheduleAheadTime)
              e.errs maxSchedulesPerIteration 0
              { s with lastUpdateTime := e.wallNow }).1.hasCallback = true
            rw [h3]; exact hcb0
          · exact h4
          · exact h5
          · simp only [hr1] at h
            simp at h
          · exact h7
      · have hctx2 : s.hasContext = false := by
          cases hcx : s.hasContext
          · rfl
          · exact absurd hcx hctx
        rw [schedulerTick_closed e s hrun hth (Or.inl hctx2)]
        exact ⟨fun h => by simp [stopS] at h, by simp [stopS], fun h => by simp [stopS] at h,
          fun _ => rfl, by simp, fun h => by simp [hrun] at h⟩
  · have hrf : s.isRunning = false := by
      cases hx : s.isRunning
      · rfl
      · exact absurd hx hrun
    rw [schedulerTick_notRunning e s hrf]
    exact ⟨hcb, by simp, fun _ => by simp, fun _ => rfl, by simp, fun _ => rfl⟩

/-! ## Error-free traces: the dispatched timeline is an arithmetic grid -/

lemma runTicks_noErr (bpm : ℚ) :
    ∀ (es : List TickEnv) (s : Sched),
      (∀ e ∈ es, e.bpm = bpm ∧ ∀ k, e.errs k = false) →
      (s.isRunning = true → s.hasCallback = true) →
      ((runTicks es s).1.isRunning = true → (runTicks es s).1.hasCallback = true) ∧
      (runTicks es s).1.nextBeatTime =
        s.nextBeatTime + (runTicks es s).2.length * secondsPerBeat bpm ∧
      (runTicks es s).2.map BeatEvent.time =
        (List.range (runTicks es s).2.length).map
          (fun j : ℕ => s.nextBeatTime + (j : ℚ) * secondsPerBeat bpm)
  | [], s, hes, hcb => by
    refine ⟨hcb, by simp [runTicks], by simp [runTicks]⟩
  | e :: rest, s, hes, hcb => by
    have he := hes e (by simp)
    have hrest : ∀ e2 ∈ rest, e2.bpm = bpm ∧ ∀ k, e2.errs k = false :=
      fun e2 h2 => hes e2 (by simp [h2])
    obtain ⟨t1, t2, t3, t4, t5, t6⟩ := schedulerTick_noErr e s he.2 hcb
    obtain ⟨i1, i2, i3⟩ := runTicks_noErr bpm rest (schedulerTick e s).1 hrest t1
    have hrt : runTicks (e :: rest) s =
        ((runTicks rest (schedulerTick e s).1).1,
          (schedulerTick e s).2 ++ (runTicks rest (schedulerTick e s).1).2) := rfl
    rw [hrt]
    rw [he.1] at t2 t5
    refine ⟨i1, ?_, ?_⟩
    · rw [i2, t2, List.length_append]
      push_cast
      ring
    · rw [List.map_append, List.length_append, List.range_add, List.map_append, i3, t2, t5,
        List.map_map, List.map_map]
      simp only [List.length_map, List.length_range]
      refine congrArg₂ _ (List.map_congr_left fun j _ => rfl) ?_
      refine List.map_congr_left fun j _ => ?_
      simp only [Function.comp_apply]
      push_cast
      ring

lemma runActs_beats (N : ℕ) :
    ∀ (acts : List Act) (s : Sched),
      (∀ e, Act.tick e ∈ acts → e.numerator = N ∧ ∀ k, e.errs k = false) →
      (s.isRunning = true → s.hasCallback = true) →
      ((runActs acts s).1.isRunning = true → (runActs acts s).1.hasCallback = true) ∧
      (s.isRunning = false → (runActs acts s).2 = []) ∧
      (runActs acts s).2.map BeatEvent.beat =
        (List.range (runActs acts s).2.length).map
          (fun j => (advanceBeat N)^[j] s.currentBeat)
  | [], s, hacts, hcb => ⟨hcb, fun _ => rfl, by simp [runActs]⟩
  | Act.updInterval a :: rest, s, hacts, hcb => by
    have hrest : ∀ e, Act.tick e ∈ rest → e.numerator = N ∧ ∀ k, e.errs k = false :=
      fun e h2 => hacts e (by simp [h2])
    have hs2 : ((updateIntervalS a s).1.isRunning = true → (updateIntervalS a s).1.hasCallback
        = true) ∧ (updateIntervalS a s).1.currentBeat = s.currentBeat ∧
        ((updateIntervalS a s).1.isRunning = s.isRunning) := by
      unfold updateIntervalS
      by_cases h : s.hasContext = true <;> simp [h] <;> exact hcb
    have hrt : runActs (Act.updInterval a :: rest) s = runActs rest (updateIntervalS a s).1 :=
      rfl
    rw [hrt]
    obtain ⟨i1, i2, i3⟩ := runActs_beats N rest (updateIntervalS a s).1 hrest hs2.1
    refine ⟨i1, fun hnr => i2 (by rw [hs2.2.2]; exact hnr), ?_⟩
    rw [i3, hs2.2.1]
  | Act.tick e :: rest, s, hacts, hcb => by
    have he := hacts e (by simp)
    have hrest : ∀ e2, Act.tick e2 ∈ rest → e2.numerator = N ∧ ∀ k, e2.errs k = false :=
      fun e2 h2 => hacts e2 (by simp [h2])
    obtain ⟨t1, t2, t3, t4, t5, t6⟩ := schedulerTick_noErr e s he.2 hcb
    obtain ⟨i1, i2, i3⟩ := runActs_beats N rest (schedulerTick e s).1 hrest t1
    have hrt : runActs (Act.tick e :: rest) s =
        ((runActs rest (schedulerTick e s).1).1,
          (schedulerTick e s).2 ++ (runActs rest (schedulerTick e s).1).2) := rfl
    rw [hrt]
    rw [he.1] at t3 t5
    refine ⟨i1, fun hnr => ?_, ?_⟩
    · have hev : (schedulerTick e s).2 = [] := by rw [t6 hnr]
      have hfst : (schedulerTick e s).1 = s := by rw [t6 hnr]
      have hev2 : (runActs rest (schedulerTick e s).1).2 = [] := by
        refine i2 ?_
        rw [hfst]
        exact hnr
      rw [hev, hev2]
      rfl
    · by_cases hr1 : (schedulerTick e s).1.isRunning = true
      · rw [List.map_append, List.length_append, List.range_add, List.map_append, i3, t5,
          List.map_map, List.map_map]
        simp only [List.length_map, List.length_range]
        refine congrArg₂ _ (List.map_congr_left fun j _ => rfl) ?_
        refine List.map_congr_left fun j _ => ?_
        simp only [Function.comp_apply]
        rw [t3 hr1, ← Function.iterate_add_apply, Nat.add_comm]
      · have hrf : (schedulerTick e s).1.isRunning = false := by
          cases hx : (schedulerTick e s).1.isRunning
          · rfl
          · exact absurd hx hr1
        have hev : (schedulerTick e s).2 = [] := t4 hrf
        have hev2 : (runActs rest (schedulerTick e s).1).2 = [] := i2 hrf
        rw [hev, hev2]
        simp

/-- Iterating the beat advance from 1 yields the cycle `1, 2, …, N, 1, …`. -/
lemma iterate_advanceBeat_one (N : ℕ) (hN : 1 ≤ N) :
    ∀ j : ℕ, (advanceBeat N)^[j] 1 = j % N + 1 := by
  intro j
  induction j with
  | zero => simp
  | succ j ih =>
    rw [Function.iterate_succ_apply', ih]
    unfold advanceBeat
    congr 1
    by_cases h1 : N = 1
    · simp [h1]
    · have h2 : 1 < N := by omega
      rw [Nat.add_mod j 1 N, Nat.mod_eq_of_lt h2]

/-- Reading one entry out of a list whose image under `g` is a tabulated map
over `List.range`. -/
lemma get_of_map_eq_range_map {α β : Type} (g : α → β) (l : List α) (f : ℕ → β)
    (h : l.map g = (List.range l.length).map f) (j : ℕ) (hj : j < l.length) :
    g (l.get ⟨j, hj⟩) = f j := by
  have h1 : (l.map g)[j]? = ((List.range l.length).map f)[j]? := by rw [h]
  rw [List.getElem?_map, List.getElem?_map, List.getElem?_eq_getElem hj,
    List.getElem?_eq_getElem (by simpa using hj), Option.map_some', Option.map_some',
    List.getElem_range] at h1
  rw [List.get_eq_getElem]
  exact Option.some.inj h1

/-- In the running branch, the dispatched events of a tick are exactly the
inner loop's output. -/
lemma schedulerTick_events_eq (e : TickEnv) (s : Sched) (hrun : s.isRunning = true)
    (hth : ¬ (s.lastUpdateTime ≠ 0 ∧ e.wallNow - s.lastUpdateTime < minScheduleInterval))
    (hctx : s.hasContext = true) (hst : e.acState = ACState.running) :
    (schedulerTick e s).2 = (innerLoop e.numerator (secondsPerBeat e.bpm)
        (e.acNow + scheduleAheadTime) e.errs maxSchedulesPerIteration 0
        { s with lastUpdateTime := e.wallNow }).2.1 := by
  have c1 : (¬s.isRunning = true) = False := by simp [hrun]
  have c2 : (s.lastUpdateTime ≠ 0 ∧ e.wallNow - s.lastUpdateTime < minScheduleInterval)
      = False := by
    rw [eq_iff_iff, iff_false]
    exact hth
  have c3 : (¬s.hasContext = true ∨ e.acState = ACState.closed) = False := by
    simp [hctx, hst]
  have c4 : (e.acState = ACState.suspended) = False := by simp [hst]
  simp only [schedulerTick, c1, c2, c3, c4, if_false, ite_false]
  split_ifs <;> rfl

/-- The first beat dispatched by a tick carries the pre-tick `nextBeatTime`
and `currentBeat`. -/
lemma schedulerTick_head (e : TickEnv) (s : Sched) (hcb : s.hasCallback = true) :
    ∀ ev rest, (schedulerTick e s).2 = ev :: rest → ev = ⟨s.nextBeatTime, s.currentBeat⟩ := by
  intro ev rest h
  by_cases hrun : s.isRunning = true
  · by_cases hth : s.lastUpdateTime ≠ 0 ∧ e.wallNow - s.lastUpdateTime < minScheduleInterval
    · rw [schedulerTick_throttled e s hrun hth] at h
      simp at h
    · by_cases hctx : s.hasContext = true
      · cases hst : e.acState with
        | closed =>
          rw [schedulerTick_closed e s hrun hth (Or.inr hst)] at h
          simp at h
        | suspended =>
          rw [schedulerTick_suspendedCase e s hrun hth hctx hst] at h
          simp at h
        | running =>
          rw [schedulerTick_events_eq e s hrun hth hctx hst] at h
          exact innerLoop_head e.numerator (secondsPerBeat e.bpm)
            (e.acNow + scheduleAheadTime) e.errs maxSchedulesPerIteration 0
            { s with lastUpdateTime := e.wallNow } hcb ev rest h
      · have hctx2 : s.hasContext = false := by
          cases hcx : s.hasContext
          · rfl
          · exact absurd hcx hctx
        rw [schedulerTick_closed e s hrun hth (Or.inl hctx2)] at h
        simp at h
  · have hrf : s.isRunning = false := by
      cases hx : s.isRunning
      · rfl
      · exact absurd hx hrun
    rw [schedulerTick_notRunning e s hrf] at h
    simp at h

/-! ## Rewriting lemmas for the JavaScript number operations -/

@[simp] lemma JSNum.lt_num_num (a b : ℚ) :
    JSNum.lt (JSNum.num a) (JSNum.num b) = decide (a < b) := rfl

@[simp] lemma JSNum.lt_nan_left (x : JSNum) : JSNum.lt JSNum.nan x = false := rfl

@[simp] lemma JSNum.lt_nan_right (x : JSNum) : JSNum.lt x JSNum.nan = false := by
  cases x <;> rfl

@[simp] lemma JSNum.seq_num_num (a b : ℚ) :
    JSNum.seq (JSNum.num a) (JSNum.num b) = decide (a = b) := rfl

@[simp] lemma JSNum.seq_nan_left (x : JSNum) : JSNum.seq JSNum.nan x = false := rfl

@[simp] lemma JSNum.seq_nan_right (x : JSNum) : JSNum.seq x JSNum.nan = false := by
  cases x <;> rfl

@[simp] lemma JSNum.jsub_nan_right (x : JSNum) : JSNum.jsub x JSNum.nan = JSNum.nan := by
  cases x <;> rfl

@[simp] lemma JSNum.jabs_nan : JSNum.jabs JSNum.nan = JSNum.nan := rfl

@[simp] lemma JSNum.roundTenth_nan : JSNum.roundTenth JSNum.nan = JSNum.nan := rfl

/-! ## Abort branch of a tick -/

lemma schedulerTick_run_abort (e : TickEnv) (s : Sched) (hrun : s.isRunning = true)
    (hth : ¬ (s.lastUpdateTime ≠ 0 ∧ e.wallNow - s.lastUpdateTime < minScheduleInterval))
    (hctx : s.hasContext = true) (hst : e.acState = ACState.running)
    (hab : (innerLoop e.numerator (secondsPerBeat e.bpm) (e.acNow + scheduleAheadTime)
        e.errs maxSchedulesPerIteration 0 { s with lastUpdateTime := e.wallNow }).2.2 = true) :
    schedulerTick e s =
      ((innerLoop e.numerator (secondsPerBeat e.bpm) (e.acNow + scheduleAheadTime)
          e.errs maxSchedulesPerIteration 0 { s with lastUpdateTime := e.wallNow }).1,
       (innerLoop e.numerator (secondsPerBeat e.bpm) (e.acNow + scheduleAheadTime)
          e.errs maxSchedulesPerIteration 0 { s with lastUpdateTime := e.wallNow }).2.1) := by
  have c1 : (¬s.isRunning = true) = False := by simp [hrun]
  have c2 : (s.lastUpdateTime ≠ 0 ∧ e.wallNow - s.lastUpdateTime < minScheduleInterval)
      = False := by
    rw [eq_iff_iff, iff_false]
    exact hth
  have c3 : (¬s.hasContext = true ∨ e.acState = ACState.closed) = False := by
    simp [hctx, hst]
  have c4 : (e.acState = ACState.suspended) = False := by simp [hst]
  simp only [schedulerTick, c1, c2, c3, c4, hab, if_false, ite_false, ite_true, if_true]

/-! ## Concrete evaluations -/

lemma startS_eval : (startS 0 1000 true schedReady).1 = schedRunning := by
  norm_num [startS, schedReady, schedRunning]

lemma loopA_eval :
    innerLoop envA.numerator (secondsPerBeat envA.bpm) (envA.acNow + scheduleAheadTime)
      envA.errs maxSchedulesPerIteration 0 { schedRunning with lastUpdateTime := envA.wallNow }
      = ({ schedAfterTickA with timer := none }, [⟨1 / 5, 1⟩], false) := by
  rw [show maxSchedulesPerIteration = 19 + 1 from rfl,
    innerLoop_dispatch_ok envA.numerator (secondsPerBeat envA.bpm)
      (envA.acNow + scheduleAheadTime) envA.errs 19 0
      { schedRunning with lastUpdateTime := envA.wallNow }
      (by norm_num [schedRunning, envA, scheduleAheadTime]) rfl rfl,
    show (19 : ℕ) = 18 + 1 from rfl,
    innerLoop_idle envA.numerator (secondsPerBeat envA.bpm)
      (envA.acNow + scheduleAheadTime) envA.errs 18 1 _
      (by norm_num [dispatchAdvance, schedRunning, envA, scheduleAheadTime, secondsPerBeat])]
  norm_num [dispatchAdvance, schedRunning, envA, schedAfterTickA, secondsPerBeat, advanceBeat]

lemma tickA_eval : schedulerTick envA schedRunning = (schedAfterTickA, [⟨1 / 5, 1⟩]) := by
  rw [schedulerTick_run_noAbort envA schedRunning rfl
    (by norm_num [schedRunning, envA, minScheduleInterval]) rfl rfl
    (by rw [loopA_eval]) (by rw [loopA_eval]; rfl), loopA_eval]
  norm_num [schedAfterTickA, envA, scheduleAheadTime, minScheduleInterval, maxScheduleInterval]

lemma updInterval_eval :
    (updateIntervalS (1 / 50) schedAfterTickA).1 = schedAfterUpd := by
  norm_num [updateIntervalS, schedAfterTickA, schedAfterUpd]

lemma loopB_eval :
    innerLoop envB.numerator (secondsPerBeat envB.bpm) (envB.acNow + scheduleAheadTime)
      envB.errs maxSchedulesPerIteration 0 { schedAfterUpd with lastUpdateTime := envB.wallNow }
      = ({ schedAfterTickB with timer := some 100 }, [⟨17 / 100, 2⟩], false) := by
  rw [show maxSchedulesPerIteration = 19 + 1 from rfl,
    innerLoop_dispatch_ok envB.numerator (secondsPerBeat envB.bpm)
      (envB.acNow + scheduleAheadTime) envB.errs 19 0
      { schedAfterUpd with lastUpdateTime := envB.wallNow }
      (by norm_num [schedAfterUpd, schedAfterTickA, envB, scheduleAheadTime]) rfl rfl,
    show (19 : ℕ) = 18 + 1 from rfl,
    innerLoop_idle envB.numerator (secondsPerBeat envB.bpm)
      (envB.acNow + scheduleAheadTime) envB.errs 18 1 _
      (by norm_num [dispatchAdvance, schedAfterUpd, schedAfterTickA, envB, scheduleAheadTime,
        secondsPerBeat])]
  norm_num [dispatchAdvance, schedAfterUpd, schedAfterTickA, schedAfterTickB, envB,
    secondsPerBeat, advanceBeat]

lemma tickB_eval : schedulerTick envB schedAfterUpd = (schedAfterTickB, [⟨17 / 100, 2⟩]) := by
  rw [schedulerTick_run_noAbort envB schedAfterUpd rfl
    (by norm_num [schedAfterUpd, schedAfterTickA, envB, minScheduleInterval]) rfl rfl
    (by rw [loopB_eval]) (by rw [loopB_eval]; rfl), loopB_eval]
  norm_num [schedAfterTickB, schedAfterUpd, schedAfterTickA, envB, scheduleAheadTime,
    minScheduleInterval, maxScheduleInterval]

lemma cexActs_run :
    runActs cexActs schedRunning = (schedAfterTickB, [⟨1 / 5, 1⟩, ⟨17 / 100, 2⟩]) := by
  show runActs [Act.tick envA, Act.updInterval (1 / 50), Act.tick envB] schedRunning = _
  simp only [runActs]
  rw [tickA_eval]
  simp only []
  rw [updInterval_eval, tickB_eval]
  simp

lemma loopFail_eval :
    innerLoop envFail.numerator (secondsPerBeat envFail.bpm)
      (envFail.acNow + scheduleAheadTime) envFail.errs maxSchedulesPerIteration 0
      { schedRunning with lastUpdateTime := envFail.wallNow }
      = (schedFailStopped, [⟨1 / 5, 1⟩, ⟨6 / 5, 2⟩, ⟨11 / 5, 3⟩], true) := by
  rw [show maxSchedulesPerIteration = 19 + 1 from rfl,
    innerLoop_dispatch_err envFail.numerator (secondsPerBeat envFail.bpm)
      (envFail.acNow + scheduleAheadTime) envFail.errs 19 0
      { schedRunning with lastUpdateTime := envFail.wallNow }
      (by norm_num [schedRunning, envFail, scheduleAheadTime]) rfl rfl
      (by norm_num [schedRunning, maxAllowedErrors]),
    show (19 : ℕ) = 18 + 1 from rfl,
    innerLoop_dispatch_err envFail.numerator (secondsPerBeat envFail.bpm)
      (envFail.acNow + scheduleAheadTime) envFail.errs 18 1 _
      (by norm_num [dispatchAdvance, schedRunning, envFail, scheduleAheadTime, secondsPerBeat])
      rfl rfl (by norm_num [dispatchAdvance, schedRunning, maxAllowedErrors]),
    show (18 : ℕ) = 17 + 1 from rfl,
    innerLoop_dispatch_abort envFail.numerator (secondsPerBeat envFail.bpm)
      (envFail.acNow + scheduleAheadTime) envFail.errs 17 2 _
      (by norm_num [dispatchAdvance, schedRunning, envFail, scheduleAheadTime, secondsPerBeat])
      rfl rfl (by norm_num [dispatchAdvance, schedRunning, maxAllowedErrors])]
  norm_num [attemptRecoveryS, stopS, dispatchAdvance, schedRunning, envFail,
    schedFailStopped, secondsPerBeat, advanceBeat]

lemma loopFailOne_eval :
    innerLoop envFail.numerator (secondsPerBeat envFail.bpm) (6 / 5) envFail.errs
      maxSchedulesPerIteration 0 { schedRunning with lastUpdateTime := envFail.wallNow }
      = ({ schedRunning with
            lastUpdateTime := envFail.wallNow,
            nextBeatTime := 6 / 5,
            currentBeat := 2,
            errorCount := 1 }, [⟨1 / 5, 1⟩], false) := by
  rw [show maxSchedulesPerIteration = 19 + 1 from rfl,
    innerLoop_dispatch_err envFail.numerator (secondsPerBeat envFail.bpm) (6 / 5)
      envFail.errs 19 0 { schedRunning with lastUpdateTime := envFail.wallNow }
      (by norm_num [schedRunning]) rfl rfl
      (by norm_num [schedRunning, maxAllowedErrors]),
    show (19 : ℕ) = 18 + 1 from rfl,
    innerLoop_idle envFail.numerator (secondsPerBeat envFail.bpm) (6 / 5) envFail.errs 18 1 _
      (by norm_num [dispatchAdvance, schedRunning, envFail, secondsPerBeat])]
  norm_num [dispatchAdvance, schedRunning, envFail, secondsPerBeat, advanceBeat]

lemma tickFail_eval :
    schedulerTick envFail schedRunning =
      (schedFailStopped, [⟨1 / 5, 1⟩, ⟨6 / 5, 2⟩, ⟨11 / 5, 3⟩]) := by
  rw [schedulerTick_run_abort envFail schedRunning rfl
    (by norm_num [schedRunning, envFail, minScheduleInterval]) rfl rfl
    (by rw [loopFail_eval]), loopFail_eval]

/-! ## The claims -/

/-- **C3**: for a run with fixed time-signature numerator `N ≥ 1` and a
callback that never throws, the dispatched `beatNumber` sequence after
`start()` begins at 1 and cycles `1, 2, …, N, 1, …` with no skips — the j-th
dispatched beat number is `j % N + 1`, each step being
`(currentBeat % N) + 1` — even across tempo changes (`updateInterval`
re-anchors only `nextBeatTime`, never `currentBeat`). -/
theorem beatNumber_cycles (N : ℕ) (hN : 1 ≤ N) (s : Sched) (hctx : s.hasContext = true)
    (hnr : s.isRunning = false) (acNow wallNow : ℚ) (acts : List Act)
    (hacts : ∀ e, Act.tick e ∈ acts → e.numerator = N ∧ ∀ k, e.errs k = false) :
    ∀ j (hj : j < (runActs acts (startS acNow wallNow true s).1).2.length),
      ((runActs acts (startS acNow wallNow true s).1).2.get ⟨j, hj⟩).beat = j % N + 1 := by
  intro j hj
  have hs1 : (startS acNow wallNow true s).1 =
      { s with hasCallback := true, isRunning := true, currentBeat := 1,
               errorCount := 0, nextBeatTime := acNow + 1 / 5,
               lastUpdateTime := wallNow } := by
    unfold startS
    simp [hctx, hnr]
  obtain ⟨_, _, hmap⟩ :=
    runActs_beats N acts (startS acNow wallNow true s).1 hacts
      (by rw [hs1]; exact fun _ => rfl)
  rw [hs1] at hmap
  have := get_of_map_eq_range_map BeatEvent.beat
    (runActs acts (startS acNow wallNow true s).1).2
    (fun j => (advanceBeat N)^[j]
      ({ s with hasCallback := true, isRunning := true, currentBeat := 1,
                errorCount := 0, nextBeatTime := acNow + 1 / 5,
                lastUpdateTime := wallNow } : Sched).currentBeat)
    (by rw [hs1]; exact hmap) j hj
  rw [this]
  exact iterate_advanceBeat_one N hN j

/-- **C3** (witness): concrete run — start at clock 0, one clean tick, a
tempo-change re-anchor, another tick; the second dispatched beat (index 1)
has beat number `1 % 4 + 1 = 2`. -/
theorem beatNumber_cycles_witness :
    ((runActs cexActs (startS 0 1000 true schedReady).1).2.get
        ⟨1, by rw [startS_eval, cexActs_run]; simp⟩).beat = 1 % 4 + 1 :=
  beatNumber_cycles 4 (by norm_num) schedReady rfl rfl 0 1000 cexActs
    (fun e he => by
      simp only [cexActs, List.mem_cons, List.not_mem_nil, or_false] at he
      rcases he with h | h | h
      · injection h with h2
        subst h2
        exact ⟨rfl, fun k => rfl⟩
      · exact absurd h (by simp)
      · injection h with h2
        subst h2
        exact ⟨rfl, fun k => rfl⟩)
    1 (by rw [startS_eval, cexActs_run]; simp)

/-- **C2** (amended): while the bpm in effect is fixed (no `updateInterval`
re-anchor between them), the dispatched beat timestamps form the exact
arithmetic grid `nextBeatTime + j * (60 / bpm)`: they are strictly
increasing and consecutive differences equal `secondsPerBeat bpm` exactly.
The original claim extends this across a tempo change; `updateInterval`
re-anchors `nextBeatTime = now + 0.15`, so at that boundary the difference
is arbitrary (see the counterexample). -/
theorem dispatched_grid_fixed_bpm (bpm : ℚ) (hb : 0 < bpm) (es : List TickEnv) (s : Sched)
    (hes : ∀ e ∈ es, e.bpm = bpm ∧ ∀ k, e.errs k = false)
    (hcb : s.isRunning = true → s.hasCallback = true) :
    (∀ j (hj : j < (runTicks es s).2.length),
        ((runTicks es s).2.get ⟨j, hj⟩).time = s.nextBeatTime + j * secondsPerBeat bpm) ∧
    List.Chain' (fun a b : BeatEvent =>
        a.time < b.time ∧ b.time - a.time = secondsPerBeat bpm) (runTicks es s).2 := by
  obtain ⟨-, -, hmap⟩ := runTicks_noErr bpm es s hes hcb
  constructor
  · intro j hj
    exact get_of_map_eq_range_map BeatEvent.time (runTicks es s).2 _ hmap j hj
  · have hi : 0 < secondsPerBeat bpm := by
      unfold secondsPerBeat
      positivity
    refine (@List.chain'_map ℚ BeatEvent
      (fun x y => x < y ∧ y - x = secondsPerBeat bpm) BeatEvent.time
      (runTicks es s).2).mp ?_
    rw [hmap]
    refine (List.chain'_map _).mpr ?_
    cases hn : (runTicks es s).2.length with
    | zero => simp
    | succ n =>
      refine (List.chain'_range_succ _ n).mpr fun m hm => ?_
      refine ⟨?_, ?_⟩
      · simp only [Nat.succ_eq_add_one]
        push_cast
        nlinarith [hi]
      · simp only [Nat.succ_eq_add_one]
        push_cast
        ring

/-- **C2** (witness): one clean tick from the started state dispatches the
beat at exactly `nextBeatTime + 0 * (60/60)`. -/
theorem dispatched_grid_fixed_bpm_witness :
    ((runTicks [envA] schedRunning).2.get
        ⟨0, by simp only [runTicks]; rw [tickA_eval]; simp⟩).time =
      schedRunning.nextBeatTime + (0 : ℕ) * secondsPerBeat 60 :=
  (dispatched_grid_fixed_bpm 60 (by norm_num) [envA] schedRunning
    (fun e he => by
      rw [List.mem_singleton] at he
      subst he
      exact ⟨rfl, fun k => rfl⟩)
    (fun _ => rfl)).1 0 (by simp only [runTicks]; rw [tickA_eval]; simp)

/-- **C2** (counterexample): a tempo change mid-run (the `updateInterval`
re-anchor to `now + 0.15` between two ticks) produces a dispatched sequence
`[0.2 s, 0.17 s]`: the second timestamp is *not* greater than the first, and
their difference is not `secondsPerBeat` at the bpm in effect — refuting
strict monotonicity and exact spacing "including across a tempo change". -/
theorem tempo_change_breaks_grid :
    (runActs cexActs schedRunning).2 = [⟨1 / 5, 1⟩, ⟨17 / 100, 2⟩] ∧
    ¬ ((1 / 5 : ℚ) < 17 / 100) ∧
    ¬ ((17 / 100 : ℚ) - 1 / 5 = secondsPerBeat 60) := by
  refine ⟨by rw [cexActs_run], by norm_num, by norm_num [secondsPerBeat]⟩

/-- **C1** (amended): in the scheduler's inner dispatch loop, with the
consecutive-error count below `maxAllowedErrors` on entry: (i) if every
callback throws, then as long as the threshold is not reached each throwing
dispatch increments `errorCount` and still advances the timeline exactly
once — `nextBeatTime` grows by one interval per dispatch *and* the beat
counter advances by one `advanceBeat` step per dispatch, the count grows by
the number of dispatches, the scheduler stays running; the dispatch whose
increment reaches `maxAllowedErrors = 3` stops the scheduler, arms the
1000 ms recovery timeout and aborts immediately *without* advancing the
timeline — only `length - 1` intervals are added; (ii) after any successful
dispatch (`errs ≡ false`) `errorCount` is reset to 0. -/
theorem error_dispatch_timeline (N : ℕ) (i b : ℚ) (errs : ℕ → Bool) (fuel k : ℕ)
    (s : Sched) (hcb : s.hasCallback = true) (hec : s.errorCount < maxAllowedErrors) :
    ((∀ k2, errs k2 = true) →
      (((innerLoop N i b errs fuel k s).2.2 = false →
          (innerLoop N i b errs fuel k s).1.nextBeatTime =
            s.nextBeatTime + (innerLoop N i b errs fuel k s).2.1.length * i ∧
          (innerLoop N i b errs fuel k s).1.currentBeat =
            (advanceBeat N)^[(innerLoop N i b errs fuel k s).2.1.length] s.currentBeat ∧
          (innerLoop N i b errs fuel k s).1.errorCount =
            s.errorCount + (innerLoop N i b errs fuel k s).2.1.length ∧
          (innerLoop N i b errs fuel k s).1.isRunning = s.isRunning) ∧
        ((innerLoop N i b errs fuel k s).2.2 = true →
          (innerLoop N i b errs fuel k s).1.isRunning = false ∧
          (innerLoop N i b errs fuel k s).1.recovery = some 1000 ∧
          1 ≤ (innerLoop N i b errs fuel k s).2.1.length ∧
          s.errorCount + (innerLoop N i b errs fuel k s).2.1.length = maxAllowedErrors ∧
          (innerLoop N i b errs fuel k s).1.nextBeatTime =
            s.nextBeatTime +
              (((innerLoop N i b errs fuel k s).2.1.length - 1 : ℕ) : ℚ) * i))) ∧
    ((∀ k2, errs k2 = false) → (innerLoop N i b errs fuel k s).2.1 ≠ [] →
      (innerLoop N i b errs fuel k s).1.errorCount = 0) := by
  constructor
  · intro ha
    obtain ⟨hno, hab⟩ := innerLoop_allFail N i b errs ha fuel k s hcb hec
    exact ⟨fun hf => ⟨(hno hf).2.1, (hno hf).2.2.1, (hno hf).2.2.2.1, (hno hf).1⟩, hab⟩
  · intro hz hne
    obtain ⟨-, -, -, -, -, h6, -⟩ := innerLoop_noErr N i b errs hz fuel k s hcb
    rw [h6, if_neg fun h0 => hne (List.length_eq_zero.mp h0)]

/-- **C1** (witness): the always-throwing loop from the started state
(`errorCount = 0`) aborts with exactly 3 dispatches, stopped, recovery armed,
and the timeline advanced only `3 - 1 = 2` intervals; and with a lookahead
boundary of `1.2 s` (one throwing dispatch, below the threshold) the loop
stays running and advances `nextBeatTime` by one interval, the beat counter
by one `advanceBeat` step, and `errorCount` by one. -/
theorem error_dispatch_timeline_witness :
    ((innerLoop envFail.numerator (secondsPerBeat envFail.bpm)
        (envFail.acNow + scheduleAheadTime) envFail.errs maxSchedulesPerIteration 0
        { schedRunning with lastUpdateTime := envFail.wallNow }).1.isRunning = false ∧
      (innerLoop envFail.numerator (secondsPerBeat envFail.bpm)
        (envFail.acNow + scheduleAheadTime) envFail.errs maxSchedulesPerIteration 0
        { schedRunning with lastUpdateTime := envFail.wallNow }).1.recovery = some 1000 ∧
      1 ≤ (innerLoop envFail.numerator (secondsPerBeat envFail.bpm)
        (envFail.acNow + scheduleAheadTime) envFail.errs maxSchedulesPerIteration 0
        { schedRunning with lastUpdateTime := envFail.wallNow }).2.1.length ∧
      ({ schedRunning with lastUpdateTime := envFail.wallNow } : Sched).errorCount +
        (innerLoop envFail.numerator (secondsPerBeat envFail.bpm)
          (envFail.acNow + scheduleAheadTime) envFail.errs maxSchedulesPerIteration 0
          { schedRunning with lastUpdateTime := envFail.wallNow }).2.1.length
          = maxAllowedErrors ∧
      (innerLoop envFail.numerator (secondsPerBeat envFail.bpm)
          (envFail.acNow + scheduleAheadTime) envFail.errs maxSchedulesPerIteration 0
          { schedRunning with lastUpdateTime := envFail.wallNow }).1.nextBeatTime =
        ({ schedRunning with lastUpdateTime := envFail.wallNow } : Sched).nextBeatTime +
          (((innerLoop envFail.numerator (secondsPerBeat envFail.bpm)
              (envFail.acNow + scheduleAheadTime) envFail.errs maxSchedulesPerIteration 0
              { schedRunning with lastUpdateTime := envFail.wallNow }).2.1.length - 1 : ℕ) : ℚ)
            * secondsPerBeat envFail.bpm) ∧
    ((innerLoop envFail.numerator (secondsPerBeat envFail.bpm) (6 / 5) envFail.errs
        maxSchedulesPerIteration 0
        { schedRunning with lastUpdateTime := envFail.wallNow }).1.nextBeatTime =
      ({ schedRunning with lastUpdateTime := envFail.wallNow } : Sched).nextBeatTime +
        (innerLoop envFail.numerator (secondsPerBeat envFail.bpm) (6 / 5) envFail.errs
          maxSchedulesPerIteration 0
          { schedRunning with lastUpdateTime := envFail.wallNow }).2.1.length
          * secondsPerBeat envFail.bpm ∧
      (innerLoop envFail.numerator (secondsPerBeat envFail.bpm) (6 / 5) envFail.errs
        maxSchedulesPerIteration 0
        { schedRunning with lastUpdateTime := envFail.wallNow }).1.currentBeat =
      (advanceBeat envFail.numerator)^[(innerLoop envFail.numerator
          (secondsPerBeat envFail.bpm) (6 / 5) envFail.errs maxSchedulesPerIteration 0
          { schedRunning with lastUpdateTime := envFail.wallNow }).2.1.length]
        ({ schedRunning with lastUpdateTime := envFail.wallNow } : Sched).currentBeat ∧
      (innerLoop envFail.numerator (secondsPerBeat envFail.bpm) (6 / 5) envFail.errs
        maxSchedulesPerIteration 0
        { schedRunning with lastUpdateTime := envFail.wallNow }).1.errorCount =
      ({ schedRunning with lastUpdateTime := envFail.wallNow } : Sched).errorCount +
        (innerLoop envFail.numerator (secondsPerBeat envFail.bpm) (6 / 5) envFail.errs
          maxSchedulesPerIteration 0
          { schedRunning with lastUpdateTime := envFail.wallNow }).2.1.length ∧
      (innerLoop envFail.numerator (secondsPerBeat envFail.bpm) (6 / 5) envFail.errs
        maxSchedulesPerIteration 0
        { schedRunning with lastUpdateTime := envFail.wallNow }).1.isRunning =
      ({ schedRunning with lastUpdateTime := envFail.wallNow } : Sched).isRunning) :=
  ⟨((error_dispatch_timeline envFail.numerator (secondsPerBeat envFail.bpm)
      (envFail.acNow + scheduleAheadTime) envFail.errs maxSchedulesPerIteration 0
      { schedRunning with lastUpdateTime := envFail.wallNow } rfl
      (by norm_num [schedRunning, maxAllowedErrors])).1
    (fun _ => rfl)).2 (by rw [loopFail_eval]),
   ((error_dispatch_timeline envFail.numerator (secondsPerBeat envFail.bpm)
      (6 / 5) envFail.errs maxSchedulesPerIteration 0
      { schedRunning with lastUpdateTime := envFail.wallNow } rfl
      (by norm_num [schedRunning, maxAllowedErrors])).1
    (fun _ => rfl)).1 (by rw [loopFailOne_eval])⟩

/-- **C1** (counterexample): with a callback that throws on every dispatch,
the tick dispatches 3 beats whose beat numbers are `1, 2, 3` — so each of
the two below-threshold throwing dispatches did advance the beat counter by
one — but advances `nextBeatTime` only twice: the third (threshold-reaching)
throwing dispatch does not advance the timeline, refuting "still advances
the timeline exactly once" for *every* throwing dispatch; the scheduler does
stop and arm recovery. -/
theorem third_failure_does_not_advance :
    (schedulerTick envFail schedRunning).2.length = 3 ∧
    ((schedulerTick envFail schedRunning).2).map BeatEvent.beat = [1, 2, 3] ∧
    (schedulerTick envFail schedRunning).1.nextBeatTime =
      schedRunning.nextBeatTime + 2 * secondsPerBeat envFail.bpm ∧
    ¬ (schedulerTick envFail schedRunning).1.nextBeatTime =
      schedRunning.nextBeatTime + 3 * secondsPerBeat envFail.bpm ∧
    (schedulerTick envFail schedRunning).1.isRunning = false ∧
    (schedulerTick envFail schedRunning).1.recovery = some 1000 := by
  rw [tickFail_eval]
  norm_num [schedFailStopped, schedRunning, envFail, secondsPerBeat]

/-- **C5**: a tick that finds the audio context `suspended` dispatches no
beats, leaves `nextBeatTime` (and the whole scheduler state except
`lastUpdateTime`) untouched, and re-arms itself after exactly 50 ms; and any
later tick that does dispatch starts from the previously computed
`nextBeatTime`, so no beat is ever scheduled against a suspended device. -/
theorem suspended_tick_no_dispatch (e e2 : TickEnv) (s : Sched)
    (hrun : s.isRunning = true) (hcb : s.hasCallback = true) (hctx : s.hasContext = true)
    (hsus : e.acState = ACState.suspended)
    (hth : ¬ (s.lastUpdateTime ≠ 0 ∧ e.wallNow - s.lastUpdateTime < minScheduleInterval)) :
    schedulerTick e s = ({ s with lastUpdateTime := e.wallNow, timer := some 50 }, []) ∧
    (schedulerTick e s).1.nextBeatTime = s.nextBeatTime ∧
    ∀ ev rest, (schedulerTick e2 (schedulerTick e s).1).2 = ev :: rest →
      ev.time = s.nextBeatTime := by
  have h1 := schedulerTick_suspendedCase e s hrun hth hctx hsus
  refine ⟨h1, by rw [h1], fun ev rest h => ?_⟩
  rw [h1] at h
  have h2 := schedulerTick_head e2 { s with lastUpdateTime := e.wallNow, timer := some 50 }
    hcb ev rest h
  rw [h2]

/-- **C5** (witness): the concrete suspended tick at audio-clock 3 s from the
running state dispatches nothing, re-arms at 50 ms, and preserves
`nextBeatTime`. -/
theorem suspended_tick_no_dispatch_witness :
    schedulerTick envSus schedRunning =
      ({ schedRunning with lastUpdateTime := envSus.wallNow, timer := some 50 }, []) ∧
    (schedulerTick envSus schedRunning).1.nextBeatTime = schedRunning.nextBeatTime :=
  ⟨(suspended_tick_no_dispatch envSus envSus schedRunning rfl rfl rfl rfl
      (by norm_num [schedRunning, envSus, minScheduleInterval])).1,
   (suspended_tick_no_dispatch envSus envSus schedRunning rfl rfl rfl rfl
      (by norm_num [schedRunning, envSus, minScheduleInterval])).2.1⟩

/-- **C4** (amended): the module-level `setBPM` is a validator, not a clamp:
out-of-range input is rejected as a no-op returning false, while `NaN`
passes its range check (both NaN comparisons are false) and is stored as the
new bpm with a success return.  The class-level `Metronome.setBPM` does
clamp into `[minBPM, maxBPM]`, so above-range input yields `maxBPM` — but
`NaN` is coerced to 0 by `Number(value) || 0` and clamps up to `minBPM`,
changing the bpm rather than leaving it untouched. -/
theorem setBPM_behaviors (q : ℚ) (st : AppState) :
    ((q < minBPM ∨ maxBPM < q) → setBPM (JSNum.num q) st = (st, false)) ∧
    setBPM JSNum.nan st = ({ st with bpm := JSNum.nan }, true) ∧
    (maxBPM < q → classSetBPM (JSNum.num q) = maxBPM) ∧
    classSetBPM JSNum.nan = minBPM := by
  refine ⟨fun h => ?_, ?_, fun h => ?_, ?_⟩
  · have hc : (JSNum.lt (JSNum.num q) (JSNum.num minBPM)
        || JSNum.lt (JSNum.num maxBPM) (JSNum.num q)) = true := by
      simp only [JSNum.lt_num_num, Bool.or_eq_true, decide_eq_true_eq]
      exact h
    unfold setBPM
    rw [if_pos hc]
  · simp [setBPM]
  · have hq : (300 : ℚ) < q := by
      simpa [maxBPM] using h
    simp only [classSetBPM, clampJS, JSNum.orZero, minBPM, maxBPM]
    rw [max_eq_left (by linarith), min_eq_right (by linarith)]
  · norm_num [classSetBPM, clampJS, JSNum.orZero, minBPM, maxBPM]

/-- **C4** (witness): `setBPM(1000)` on the default state is rejected
(no clamp), while the class setter clamps 1000 to `maxBPM = 300`. -/
theorem setBPM_behaviors_witness :
    setBPM (JSNum.num 1000) defaultAppState = (defaultAppState, false) ∧
    classSetBPM (JSNum.num 1000) = maxBPM :=
  ⟨(setBPM_behaviors 1000 defaultAppState).1 (Or.inr (by norm_num [maxBPM])),
   (setBPM_behaviors 1000 defaultAppState).2.2.1 (by norm_num [maxBPM])⟩

/-- **C4** (counterexample): refutes the claim as stated on both cited
setters — the module-level `setBPM(1000)` does *not* clamp to 300 (it
returns false leaving bpm at 120), `setBPM(NaN)` does *not* leave bpm
unchanged or fail (it stores NaN and returns true), and the class-level
setter maps NaN to 40 (= minBPM), again changing bpm. -/
theorem setBPM_claim_counterexample :
    (setBPM (JSNum.num 1000) defaultAppState).2 = false ∧
    (setBPM (JSNum.num 1000) defaultAppState).1.bpm = JSNum.num 120 ∧
    (setBPM JSNum.nan defaultAppState).2 = true ∧
    (setBPM JSNum.nan defaultAppState).1.bpm = JSNum.nan ∧
    classSetBPM JSNum.nan = 40 := by
  have h1 : setBPM (JSNum.num 1000) defaultAppState = (defaultAppState, false) := by
    have hc : (JSNum.lt (JSNum.num 1000) (JSNum.num minBPM)
        || JSNum.lt (JSNum.num maxBPM) (JSNum.num 1000)) = true := by
      simp only [JSNum.lt_num_num, Bool.or_eq_true, decide_eq_true_eq]
      right
      norm_num [maxBPM]
    unfold setBPM
    rw [if_pos hc]
  have h2 : setBPM JSNum.nan defaultAppState =
      ({ defaultAppState with bpm := JSNum.nan }, true) := by
    simp [setBPM]
  refine ⟨by rw [h1], by rw [h1]; rfl, by rw [h2], by rw [h2],
    by norm_num [classSetBPM, clampJS, JSNum.orZero, minBPM, maxBPM]⟩

/-- Unfolding of `Metronome._playBeat` on a number volume. -/
lemma playBeat_eval (v : JSNum) (t : ℚ) (acc : Bool) :
    _playBeat (some v) t acc =
      some { frequency := (if acc then toneConfigAccent else toneConfigClick).frequency,
             envPeak := clampJS (JSNum.divc v 100) 0 1 * (1 / 2),
             startTime := t,
             stopTime := t + (if acc then toneConfigAccent else toneConfigClick).duration
               + 1 / 100 } := rfl

/-- **C6** (amended): whenever `playSoundInternal` succeeds, the gain peak it
commits to the envelope is the input volume clamped to `[0, 0.9]`, and the
`source.start` time is the requested time clamped up to the clock's current
time — never earlier than `audioContext.currentTime`.  The class-based
`Metronome._playBeat`, however, clamps its percent volume by
`clamp(volume / 100, 0, 1)` and halves it for the envelope peak — not the
input volume clamped to `[0, 0.9]` — and issues `oscillator.start` at the
*requested* time unchanged, with no clamp against the clock's current
time. -/
theorem playSound_clamps (ini ctx : Bool) (buf : SoundName → Bool) (acNow : ℚ)
    (opts : PlayOpts) (r : PlayResult) (v : JSNum) (t : ℚ) (acc : Bool)
    (rb : PlayBeatResult) :
    (playSoundInternal ini ctx buf acNow opts = some r →
      r.safeVolume = max 0 (min (9 / 10) opts.volume) ∧
      r.startTime = max opts.time acNow ∧
      acNow ≤ r.startTime) ∧
    (_playBeat (some v) t acc = some rb →
      rb.envPeak = clampJS (JSNum.divc v 100) 0 1 * (1 / 2) ∧
      rb.startTime = t) := by
  constructor
  · intro h
    rcases opts with ⟨ty, time, volume⟩
    unfold playSoundInternal at h
    cases ty <;>
      (simp only [] at h
       split_ifs at h <;>
         (injection h with h2
          subst h2
          exact ⟨rfl, rfl, le_max_right _ _⟩))
  · intro h
    rw [playBeat_eval] at h
    injection h with h2
    subst h2
    exact ⟨rfl, rfl⟩

/-- **C6** (witness): a regular beat requested of `playSoundInternal` at
0.2 s with out-of-range volume 2 plays the `low` click at gain `0.9` and
start time `0.2 ≥ now = 0`; an accent beat requested of `_playBeat` at 3 s
with percent volume 80 ramps to envelope peak `0.8 * 0.5 = 0.4` and starts
at exactly the requested 3 s. -/
theorem playSound_clamps_witness :
    ((⟨SoundName.low, 9 / 10, 1 / 5, 1 / 500, 3 / 1000, 1 / 40, 3 / 100⟩
        : PlayResult).safeVolume
      = max 0 (min (9 / 10) (⟨BeatType.regularBeat, 1 / 5, 2⟩ : PlayOpts).volume) ∧
      (⟨SoundName.low, 9 / 10, 1 / 5, 1 / 500, 3 / 1000, 1 / 40, 3 / 100⟩
        : PlayResult).startTime
      = max (⟨BeatType.regularBeat, 1 / 5, 2⟩ : PlayOpts).time 0 ∧
      (0 : ℚ) ≤ (⟨SoundName.low, 9 / 10, 1 / 5, 1 / 500, 3 / 1000, 1 / 40, 3 / 100⟩
        : PlayResult).startTime) ∧
    ((⟨1200, 2 / 5, 3, 77 / 25⟩ : PlayBeatResult).envPeak
      = clampJS (JSNum.divc (JSNum.num 80) 100) 0 1 * (1 / 2) ∧
      (⟨1200, 2 / 5, 3, 77 / 25⟩ : PlayBeatResult).startTime = 3) :=
  ⟨(playSound_clamps true true (fun _ => true) 0 ⟨BeatType.regularBeat, 1 / 5, 2⟩
      ⟨SoundName.low, 9 / 10, 1 / 5, 1 / 500, 3 / 1000, 1 / 40, 3 / 100⟩
      (JSNum.num 80) 3 true ⟨1200, 2 / 5, 3, 77 / 25⟩).1
    (by norm_num [playSoundInternal, getActualSoundDuration, min_def, max_def]),
   (playSound_clamps true true (fun _ => true) 0 ⟨BeatType.regularBeat, 1 / 5, 2⟩
      ⟨SoundName.low, 9 / 10, 1 / 5, 1 / 500, 3 / 1000, 1 / 40, 3 / 100⟩
      (JSNum.num 80) 3 true ⟨1200, 2 / 5, 3, 77 / 25⟩).2
    (by rw [playBeat_eval]
        norm_num [toneConfigAccent, clampJS, JSNum.divc, JSNum.orZero, min_def, max_def])⟩

/-- **C6** (counterexample): `Metronome._playBeat` with percent volume 90,
requested time 0 and the device clock already past 0 (say at 5 s) starts the
oscillator at the requested 0 — in the past, with no clamp-up — and its
envelope peak is `clamp(90 / 100, 0, 1) * 0.5 = 0.45`, not the input volume
clamped to `[0, 0.9]` (which would be `0.9`): both halves of the claimed
property fail for this cited sound-playing function. -/
theorem playBeat_violates_clamps :
    _playBeat (some (JSNum.num 90)) 0 false =
      some (⟨800, 9 / 20, 0, 3 / 50⟩ : PlayBeatResult) ∧
    (⟨800, 9 / 20, 0, 3 / 50⟩ : PlayBeatResult).startTime < 5 ∧
    ¬ (⟨800, 9 / 20, 0, 3 / 50⟩ : PlayBeatResult).envPeak
        = max 0 (min (9 / 10) 90) := by
  refine ⟨?_, by norm_num, by norm_num [max_def, min_def]⟩
  rw [playBeat_eval]
  norm_num [toneConfigClick, clampJS, JSNum.divc, JSNum.orZero, min_def, max_def]

/-- **C7**: evaluation at the failing input — `setTimeSignature(NaN, 4)`
from the default 4/4 state.  The numerator range check is written as
`numerator < min || numerator > max`, both of which are false for NaN, so
the invalid numerator is *accepted*: the function stores NaN as
`beatNumerator`, resets `currentBeat`/`currentBar`, and returns success —
contradicting its own validation error message and the documented
validate-and-reject contract. -/
theorem setTimeSignature_nan_accepted :
    setTimeSignature JSNum.nan (JSNum.num 4) defaultAppState =
      ({ defaultAppState with
          beatNumerator := JSNum.nan, beatDenominator := JSNum.num 4,
          currentBeat := 0, currentBar := 0 }, true) := by
  have hd : (validDenominators.any fun d => JSNum.seq (JSNum.num 4) (JSNum.num d)) = true := by
    simp only [validDenominators, List.any_cons, List.any_nil, JSNum.seq_num_num,
      Bool.or_eq_true, decide_eq_true_eq]
    norm_num
  unfold setTimeSignature
  rw [if_neg (by simp), if_neg (not_not_intro hd), if_neg (by simp)]

/-- **C8**: `scheduler.start()` on an already-running scheduler (with its
context present, as any running scheduler has) returns true and changes
nothing, so two consecutive `start()` calls — with any clock readings — are
equivalent to one; and `stopMetronome()` on a stopped metronome is a no-op
reporting false. -/
theorem start_stop_idempotent :
    (∀ (a1 w1 a2 w2 : ℚ) (f : Bool) (s : Sched),
        startS a2 w2 f (startS a1 w1 f s).1 = startS a1 w1 f s) ∧
    (∀ (a w : ℚ) (f : Bool) (s : Sched), s.hasContext = true → s.isRunning = true →
        startS a w f s = (s, true)) ∧
    (∀ (st : AppState) (sch : Sched), st.isRunning = false →
        stopMetronome st sch = (st, sch, false)) := by
  refine ⟨?_, ?_, ?_⟩
  · intro a1 w1 a2 w2 f s
    by_cases hc : s.hasContext = true
    · by_cases hr : s.isRunning = true
      · simp [startS, hc, hr]
      · by_cases hf : f = true
        · simp [startS, hc, hr, hf]
        · simp [startS, hc, hr, hf]
    · simp [startS, hc]
  · intro a w f s hc hr
    simp [startS, hc, hr]
  · intro st sch h
    simp [stopMetronome, h]

/-- **C8** (witness): a second `start()` on the running scheduler returns
true with the state untouched; `stopMetronome()` on the stopped default
state returns false with everything untouched. -/
theorem start_stop_idempotent_witness :
    startS 5 5 true schedRunning = (schedRunning, true) ∧
    stopMetronome defaultAppState schedReady = (defaultAppState, schedReady, false) :=
  ⟨start_stop_idempotent.2.1 5 5 true schedRunning rfl rfl,
   start_stop_idempotent.2.2 defaultAppState schedReady rfl⟩

/-- **C9**: after the threshold stop, `stop(); attemptRecovery()` arms a
recovery timeout of exactly 1000 ms (and an already-pending timeout is never
re-armed).  The recovery body clears `errorCount`, never touches
`isRunning` (so it never restarts the scheduler — a restart requires an
explicit external `start()`), clears the timeout handle, and re-runs
`init()` only when the context is absent — i.e. was closed and reset by the
`onstatechange` listener (`resetS`) or never created; a live context is left
untouched, and when reinitialization fails the system stays stopped with no
context, awaiting an external retry. -/
theorem recovery_policy (s : Sched) (acState : ACState) (initOk : Bool) :
    (attemptRecoveryS (stopS s)).recovery = some 1000 ∧
    (s.recovery = none → (attemptRecoveryS s).recovery = some 1000) ∧
    (recoveryRun acState initOk s).errorCount = 0 ∧
    (recoveryRun acState initOk s).isRunning = s.isRunning ∧
    (recoveryRun acState initOk s).nextBeatTime = s.nextBeatTime ∧
    (recoveryRun acState initOk s).recovery = none ∧
    (s.hasContext = true → (recoveryRun acState initOk s).hasContext = true) ∧
    (s.hasContext = false → (recoveryRun acState initOk s).hasContext = initOk) := by
  refine ⟨by simp [attemptRecoveryS, stopS], fun h => by simp [attemptRecoveryS, h],
    ?_, ?_, ?_, ?_, fun hc => ?_, fun hc => ?_⟩ <;>
  · by_cases hc2 : s.hasContext = true <;>
      cases acState <;> cases initOk <;>
        simp_all [recoveryRun, initS]

/-- **C9** (witness): running the recovery body on the threshold-stopped
scheduler with a live context clears the error count, leaves it stopped, and
keeps the context untouched. -/
theorem recovery_policy_witness :
    (recoveryRun ACState.running true (stopS schedRunning)).errorCount = 0 ∧
    (recoveryRun ACState.running true (stopS schedRunning)).isRunning =
      (stopS schedRunning).isRunning ∧
    (recoveryRun ACState.running true (stopS schedRunning)).hasContext = true :=
  ⟨(recovery_policy (stopS schedRunning) ACState.running true).2.2.1,
   (recovery_policy (stopS schedRunning) ACState.running true).2.2.2.1,
   (recovery_policy (stopS schedRunning) ACState.running true).2.2.2.2.2.2.1 rfl⟩

/-- **C10**: a `toggleMetronome()` call that is not itself rejected by the
lock arms the debounce lock for `TOGGLE_LOCK_DURATION = 300` ms; any further
call within that window returns false and leaves the lock, the application
state and the scheduler state entirely unchanged. -/
theorem toggle_debounce (t0 t a1 a2 lockUntil : ℚ) (st : AppState) (sch : Sched)
    (hfree : ¬ t0 < lockUntil) (hwin : t < t0 + TOGGLE_LOCK_DURATION) :
    toggleMetronome t a2 (toggleMetronome t0 a1 lockUntil st sch).1
        (toggleMetronome t0 a1 lockUntil st sch).2.1
        (toggleMetronome t0 a1 lockUntil st sch).2.2.1 =
      ((toggleMetronome t0 a1 lockUntil st sch).1,
       (toggleMetronome t0 a1 lockUntil st sch).2.1,
       (toggleMetronome t0 a1 lockUntil st sch).2.2.1, false) := by
  have h1 : (toggleMetronome t0 a1 lockUntil st sch).1 = t0 + TOGGLE_LOCK_DURATION := by
    by_cases hr : st.isRunning = true <;> simp [toggleMetronome, hfree, hr]
  rw [h1]
  unfold toggleMetronome
  rw [if_pos hwin]

/-- **C10** (witness): after an unblocked toggle at wall-clock 1000 ms, a
second toggle at 1200 ms (inside the 300 ms window) returns false and
changes nothing. -/
theorem toggle_debounce_witness :
    toggleMetronome 1200 0 (toggleMetronome 1000 0 0 defaultAppState schedReady).1
        (toggleMetronome 1000 0 0 defaultAppState schedReady).2.1
        (toggleMetronome 1000 0 0 defaultAppState schedReady).2.2.1 =
      ((toggleMetronome 1000 0 0 defaultAppState schedReady).1,
       (toggleMetronome 1000 0 0 defaultAppState schedReady).2.1,
       (toggleMetronome 1000 0 0 defaultAppState schedReady).2.2.1, false) :=
  toggle_debounce 1000 1200 0 0 0 defaultAppState schedReady (by norm_num)
    (by norm_num [TOGGLE_LOCK_DURATION])

end Metronome
